import Mathlib

/-
  Verification development for the AI orchestration core of the Impulse
  (Arduino IDE Cursor) repository.

  Shallow embedding of:
  - the tool schema / validation layer (src/main/services/ai/tools/toolSchema.js),
  - the tool executor (src/main/services/ai/tools/toolExecutor.js),
  - the JSON-based memory store (SimpleMemory, src/main/services/ai/memory/simpleMemory.js),
  - the SQL-backed memory store (AIMemory, src/main/services/ai/memory/aiMemory.js),
  - the agent orchestrator loop (src/main/services/ai/agent.js).

  Modelling conventions:
  - JavaScript values are modelled by the inductive type JsVal; property access
    returning undefined is modelled as Option.none.
  - Promise rejection / thrown exceptions are modelled by the Except JsError channel.
  - Machine doubles only ever hold small exact constants here (0.3, 0.5, 0.6,
    0.8, 1.0, baud rates), so numbers are modelled by Rat, exactly.
  - Wall-clock time (Date.now, ISO timestamps) is modelled by a Nat clock
    threaded through the state; the executor advances it by an
    environment-supplied duration per dispatched tool call.
  - The SHA-256 hex digest is kept abstract: memory-store operations are
    parameterised by a digest function String -> String; theorems that need
    the "hex digest" shape take the (true of SHA-256) hypothesis that the
    digest always yields 64 hex characters.
  - String case folding and whitespace handling are modelled at ASCII
    fidelity, which covers every string the claims touch.
-/

/-- A thrown JavaScript error (the rejection channel of a Promise). -/
structure JsError where
  message : String
deriving DecidableEq

/-- JavaScript values as produced and consumed by the orchestration core. -/
inductive JsVal where
  | null
  | undefined
  | bool (b : Bool)
  | num (q : ℚ)
  | str (s : String)
  | arr (elems : List JsVal)
  | obj (fields : List (String × JsVal))

namespace JsVal

/-- Property read: o.k, with absent keys reading as undefined (none). -/
def objGet (v : JsVal) (k : String) : Option JsVal :=
  match v with
  | .obj fields => (fields.find? (fun p => p.1 = k)).map (fun p => p.2)
  | _ => none

/-- Property write o.k = x: overwrite the first binding of k, else append. -/
def setField (fields : List (String × JsVal)) (k : String) (x : JsVal) :
    List (String × JsVal) :=
  if fields.any (fun p => p.1 = k) then
    fields.map (fun p => if p.1 = k then (k, x) else p)
  else fields ++ [(k, x)]

end JsVal

/-! JavaScript string helpers, at ASCII fidelity. -/

/-- The whitespace characters matched by a JS whitespace class, ASCII part. -/
def jsIsSpace (c : Char) : Bool :=
  c = ' ' || c = '\t' || c = '\n' || c = '\r' || c = '\x0b' || c = '\x0c'

/-- s.toLowerCase() (ASCII). -/
def jsToLower (s : String) : String := ⟨s.data.map Char.toLower⟩

/-- s.trim(): strip whitespace from both ends. -/
def jsTrim (s : String) : String :=
  ⟨((s.data.dropWhile jsIsSpace).reverse.dropWhile jsIsSpace).reverse⟩

/-- Auxiliary for replace of a whitespace run by a single blank: the Bool
    records whether the previous character was part of a whitespace run. -/
def collapseWsAux : Bool → List Char → List Char
  | _, [] => []
  | prevSpace, c :: rest =>
    if jsIsSpace c then
      if prevSpace then collapseWsAux true rest
      else ' ' :: collapseWsAux true rest
    else c :: collapseWsAux false rest

/-- s.replace of every whitespace run by a single blank. -/
def jsCollapseWs (s : String) : String := ⟨collapseWsAux false s.data⟩

/-- needle.isPrefixOf-based substring test: hay.includes(needle). -/
def listContainsSub (hay needle : List Char) : Bool :=
  (List.range (hay.length + 1)).any (fun i => needle.isPrefixOf (hay.drop i))

/-- hay.includes(needle) on strings. -/
def jsIncludes (hay needle : String) : Bool := listContainsSub hay.data needle.data

/-- Normalise a JS array index: negative indices count from the end. -/
def jsSliceIdx (len : Nat) (i : Int) : Nat :=
  if i < 0 then (len : Int) + i |>.toNat else min i.toNat len

/-- a.slice(b, e) with JS index semantics. -/
def jsSlice (l : List JsVal) (b e : Int) : List JsVal :=
  let b' := jsSliceIdx l.length b
  let e' := jsSliceIdx l.length e
  (l.take e').drop b'

/-- a.slice(b) with JS index semantics, as used on lists of strings. -/
def jsSliceStrs (l : List String) (b e : Int) : List String :=
  let b' := jsSliceIdx l.length b
  let e' := jsSliceIdx l.length e
  (l.take e').drop b'

/-- Render a rational the way JS renders the integers used in messages. -/
def ratDisplay (q : ℚ) : String :=
  if q.den = 1 then toString q.num else toString q.num ++ "/" ++ toString q.den

/-! Tool Registry (toolSchema.js): the static catalog and validation. -/

/-- One TOOL_SCHEMA catalog entry: tool name and its required parameter names.
    (Descriptions and property schemas are carried by the source catalog but
    never read by validation or dispatch, so they are elided here.) -/
structure ToolDef where
  name : String
  required : List String
deriving DecidableEq

/-- The TOOL_SCHEMA catalog, in source order. -/
def TOOL_SCHEMA : List ToolDef := [
  ⟨"compile_sketch", []⟩,
  ⟨"upload_sketch", []⟩,
  ⟨"list_boards", []⟩,
  ⟨"list_ports", []⟩,
  ⟨"connect_serial", ["port"]⟩,
  ⟨"disconnect_serial", []⟩,
  ⟨"send_serial", ["data"]⟩,
  ⟨"read_serial", []⟩,
  ⟨"auto_detect_baud", ["port"]⟩,
  ⟨"get_baud_rate", []⟩,
  ⟨"set_baud_rate", ["baudRate"]⟩,
  ⟨"get_available_baud_rates", []⟩,
  ⟨"get_editor_code", []⟩,
  ⟨"set_editor_code", ["code"]⟩,
  ⟨"edit_code", ["operation", "startLine"]⟩,
  ⟨"search_code", ["searchText"]⟩,
  ⟨"replace_in_code", ["searchText", "replaceText"]⟩,
  ⟨"get_current_sketch_path", []⟩,
  ⟨"save_sketch", []⟩,
  ⟨"analyze_error", ["errorMessage"]⟩,
  ⟨"search_memory", ["query"]⟩,
  ⟨"record_fix", ["errorSignature", "fix"]⟩,
  ⟨"get_current_state", []⟩]

/-- DEBUG_TOOL_NAMES from toolSchema.js. -/
def DEBUG_TOOL_NAMES : List String := ["analyze_error", "search_memory", "record_fix"]

/-- getAllTools(). -/
def getAllTools : List ToolDef := TOOL_SCHEMA

/-- getDebugTools(). -/
def getDebugTools : List ToolDef :=
  TOOL_SCHEMA.filter (fun t => DEBUG_TOOL_NAMES.contains t.name)

/-- getTool(name). -/
def getTool (name : String) : Option ToolDef :=
  TOOL_SCHEMA.find? (fun t => t.name = name)

/-- A structured tool instruction from the agent. -/
structure ToolCall where
  id : String
  name : String
  arguments : List (String × JsVal)

/-- The JS test (param in toolCall.arguments). -/
def argHasKey (args : List (String × JsVal)) (k : String) : Bool :=
  args.any (fun p => p.1 = k)

/-- Argument read toolCall.arguments.k. -/
def argGet (args : List (String × JsVal)) (k : String) : Option JsVal :=
  (args.find? (fun p => p.1 = k)).map (fun p => p.2)

/-- Argument read coerced as the (args.k or empty-string) pattern used by the
    handlers that treat an argument as a string. -/
def argStr (args : List (String × JsVal)) (k : String) : String :=
  match argGet args k with
  | some (.str s) => s
  | _ => ""

/-- validateToolCall(toolCall): name non-empty, name in catalog, every
    required parameter present as an argument key. -/
def validateToolCall (tc : ToolCall) : Except String Unit :=
  if tc.name = "" then .error "Tool name is required"
  else
    match getTool tc.name with
    | none => .error ("Unknown tool: " ++ tc.name)
    | some tool =>
      match tool.required.find? (fun p => ¬ argHasKey tc.arguments p) with
      | some p => .error ("Missing required parameter: " ++ p)
      | none => .ok ()

/-! Helper: update the first list element satisfying a predicate (the JS
    pattern of Array.prototype.find followed by in-place mutation). -/

def updateFirst (p : α → Bool) (f : α → α) : List α → List α
  | [] => []
  | x :: xs => if p x then f x :: xs else x :: updateFirst p f xs

/-! SimpleMemory (simpleMemory.js): JSON-file-backed learning store.
    State is passed explicitly; persistence (load/save) round-trips the
    same state and is elided. -/

namespace SimpleMemory

/-- One entry of memory.errors. -/
structure ErrorRec where
  id : Nat
  signature : String
  message : String
  etype : Option String
  context : Option String
  count : Nat
  firstSeen : Nat
  lastSeen : Nat
deriving DecidableEq

/-- One entry of memory.fixes. -/
structure FixRec where
  id : Nat
  errorSignature : String
  description : String
  context : Option String
  createdAt : Nat
deriving DecidableEq

/-- One entry of memory.executions. -/
structure ExecRec where
  tool : String
  args : List (String × JsVal)
  success : Bool
  error : Option String
  timestamp : Nat

/-- The in-memory JSON document (memory.boards is never touched by the
    operations under study and is elided). -/
structure MemoryState where
  errors : List ErrorRec
  fixes : List FixRec
  executions : List ExecRec

/-- The empty store (the defaults used when no file exists yet). -/
def MemoryState.empty : MemoryState := ⟨[], [], []⟩

/-- The normalisation inside generateSignature:
    text.toLowerCase().replace of whitespace runs by one blank, then trim. -/
def normalizeText (s : String) : String := jsTrim (jsCollapseWs (jsToLower s))

/-- generateSignature(text): first 16 hex characters of the SHA-256 digest of
    the normalised text.  The digest is a parameter (see header comment). -/
def generateSignature (digest : String → String) (text : String) : String :=
  ⟨(digest (normalizeText text)).data.take 16⟩

/-- recordError(errorMessage, errorType, context): increment the matching
    signature entry or append a new one; returns the signature. -/
def recordError (digest : String → String) (st : MemoryState) (errorMessage : String)
    (errorType : Option String) (context : Option String) (now : Nat) :
    String × MemoryState :=
  let signature := generateSignature digest errorMessage
  match st.errors.find? (fun e => e.signature = signature) with
  | some _ =>
    let errors' := updateFirst (fun e => e.signature = signature)
      (fun e => { e with count := e.count + 1, lastSeen := now }) st.errors
    (signature, { st with errors := errors' })
  | none =>
    let rec' : ErrorRec := ⟨now, signature, errorMessage, errorType, context, 1, now, now⟩
    (signature, { st with errors := st.errors ++ [rec'] })

/-- The two result shapes of searchSimilarErrors: an exact signature match
    carrying its fixes and confidence 1.0, or the fuzzy fallback carrying
    (error, fixes, confidence) candidates plus their count. -/
inductive SearchResult where
  | exact (found : ErrorRec) (fixes : List FixRec) (confidence : ℚ)
  | fuzzy (ms : List (ErrorRec × List FixRec × ℚ)) (count : Nat)

/-- searchSimilarErrors(query, limit). -/
def searchSimilarErrors (digest : String → String) (st : MemoryState)
    (query : String) (limit : Nat) : SearchResult :=
  let querySignature := generateSignature digest query
  let queryLower := jsToLower query
  match st.errors.find? (fun e => e.signature = querySignature) with
  | some exactMatch =>
    .exact exactMatch
      (st.fixes.filter (fun f => f.errorSignature = querySignature)) 1
  | none =>
    let similar :=
      ((st.errors.filter (fun e =>
          jsIncludes (jsToLower e.message) queryLower ||
          jsIncludes queryLower ⟨(jsToLower e.message).data.take 50⟩)).take limit).map
        (fun e =>
          (e, st.fixes.filter (fun f => f.errorSignature = e.signature), mkRat 1 2))
    .fuzzy similar similar.length

/-- recordFix(errorSignature, fixDescription, context): unconditionally append
    a new fix record and return it. -/
def recordFix (st : MemoryState) (errorSignature : String) (fixDescription : String)
    (context : Option String) (now : Nat) : FixRec × MemoryState :=
  let fix : FixRec := ⟨now, errorSignature, fixDescription, context, now⟩
  (fix, { st with fixes := st.fixes ++ [fix] })

/-- recordExecution(toolName, args, success, error): append to the execution
    log, then keep only the last 100 entries. -/
def recordExecution (st : MemoryState) (toolName : String)
    (args : List (String × JsVal)) (success : Bool) (error : Option String)
    (now : Nat) : MemoryState :=
  let log := st.executions ++ [⟨toolName, args, success, error, now⟩]
  { st with executions := if log.length > 100 then log.drop (log.length - 100) else log }

/-- Encode an error record the way it is serialised back into tool results. -/
def ErrorRec.toJs (e : ErrorRec) : JsVal :=
  .obj [("id", .str (toString e.id)), ("signature", .str e.signature),
        ("message", .str e.message),
        ("type", match e.etype with | some t => .str t | none => .null),
        ("context", match e.context with | some c => .str c | none => .null),
        ("count", .num e.count), ("firstSeen", .num e.firstSeen),
        ("lastSeen", .num e.lastSeen)]

/-- Encode a fix record. -/
def FixRec.toJs (f : FixRec) : JsVal :=
  .obj [("id", .str (toString f.id)), ("errorSignature", .str f.errorSignature),
        ("description", .str f.description),
        ("context", match f.context with | some c => .str c | none => .null),
        ("createdAt", .num f.createdAt)]

/-- Encode a search result (the object shape returned to handlers). -/
def SearchResult.toJs : SearchResult → JsVal
  | .exact found fixes confidence =>
    .obj [("match", found.toJs), ("fixes", .arr (fixes.map FixRec.toJs)),
          ("confidence", .num confidence)]
  | .fuzzy ms count =>
    .obj [("matches", .arr (ms.map (fun m =>
            .obj [("error", m.1.toJs), ("fixes", .arr (m.2.1.map FixRec.toJs)),
                  ("confidence", .num m.2.2)]))),
          ("count", .num count)]

end SimpleMemory

/-! AIMemory (aiMemory.js): the sql.js-backed store.  Tables are modelled as
    lists of rows; per-table AUTOINCREMENT counters model rowids.  SQLite
    string comparison conventions: the = operator is case-sensitive, LIKE is
    case-insensitive on ASCII, and a NULL column matches neither. -/

namespace AIMemory

/-- One row of error_signatures. -/
structure SigRow where
  id : Nat
  signature : String
  errorType : Option String
  pattern : Option String
  occurrenceCount : Nat
  firstSeen : Nat
  lastSeen : Nat
deriving DecidableEq

/-- One row of fixes. -/
structure FixRow where
  id : Nat
  errorSignatureId : Nat
  fixDescription : String
  fixCode : Option String
  context : Option String
  successRate : ℚ
  appliedCount : Nat
  createdAt : Nat
  lastApplied : Nat
deriving DecidableEq

/-- One row of error_fix_associations (UNIQUE on (error_signature_id, fix_id)). -/
structure AssocRow where
  id : Nat
  errorSignatureId : Nat
  fixId : Nat
  successCount : Nat
  failureCount : Nat
  lastUsed : Nat
deriving DecidableEq

/-- The database (board_types, serial_patterns and execution_outcomes rows
    are untouched by the operations the claims exercise and are elided). -/
structure DB where
  sigs : List SigRow
  fixes : List FixRow
  assocs : List AssocRow
  nextSigId : Nat
  nextFixId : Nat
  nextAssocId : Nat

/-- A fresh database after createTables(). -/
def DB.empty : DB := ⟨[], [], [], 1, 1, 1⟩

/-- generateErrorSignature(errorMessage): same normalise-hash-truncate scheme
    as SimpleMemory.generateSignature. -/
def generateErrorSignature (digest : String → String) (errorMessage : String) : String :=
  ⟨(digest (SimpleMemory.normalizeText errorMessage)).data.take 16⟩

/-- SQL COALESCE of a bound parameter with the stored column. -/
def coalesce (a b : Option String) : Option String :=
  match a with
  | some x => some x
  | none => b

/-- recordErrorSignature(errorMessage, errorType, pattern): UPDATE the row
    with this signature (occurrence_count + 1, last_seen, COALESCEd type and
    pattern) or INSERT a fresh row; returns the row id. -/
def recordErrorSignature (digest : String → String) (db : DB) (errorMessage : String)
    (errorType : Option String) (pattern : Option String) (now : Nat) : Nat × DB :=
  let signature := generateErrorSignature digest errorMessage
  match db.sigs.find? (fun r => r.signature = signature) with
  | some row =>
    let sigs' := updateFirst (fun r => r.signature = signature)
      (fun r => { r with occurrenceCount := r.occurrenceCount + 1, lastSeen := now,
                         errorType := coalesce errorType r.errorType,
                         pattern := coalesce pattern r.pattern }) db.sigs
    (row.id, { db with sigs := sigs' })
  | none =>
    let rid := db.nextSigId
    let row : SigRow := ⟨rid, signature, errorType, pattern, 1, now, now⟩
    (rid, { db with sigs := db.sigs ++ [row], nextSigId := rid + 1 })

/-- The LIKE percent-query match of a nullable column against the query text. -/
def likeContains (column : Option String) (query : String) : Bool :=
  match column with
  | some text => jsIncludes (jsToLower text) (jsToLower query)
  | none => false

/-- The CASE similarity score of the fuzzy search. -/
def similarityOf (row : SigRow) (query : String) : ℚ :=
  if likeContains row.pattern query then mkRat 8 10
  else if row.errorType = some query then mkRat 6 10
  else mkRat 3 10

/-- Stable descending insertion sort by a rational-then-natural key pair
    (the ORDER BY key DESC, tiebreak DESC pattern). -/
def insertDescBy (key : α → ℚ × Nat) (x : α) : List α → List α
  | [] => [x]
  | y :: ys =>
    if (key y).1 > (key x).1 ∨ ((key y).1 = (key x).1 ∧ (key y).2 ≥ (key x).2) then
      y :: insertDescBy key x ys
    else x :: y :: ys

/-- Stable sort used to model ORDER BY ... DESC, ... DESC. -/
def sortDescBy (key : α → ℚ × Nat) : List α → List α
  | [] => []
  | x :: xs => insertDescBy key x (sortDescBy key xs)

/-- The fixes JOIN error_fix_associations rows for one error signature id,
    ordered by success_count descending (tiebreak: last_applied descending),
    limited.  Each element carries the fix row and its association counters. -/
def fixesForSig (db : DB) (sigId : Nat) (limit : Nat) :
    List (FixRow × Nat × Nat) :=
  let joined := db.assocs.filterMap (fun a =>
    if a.errorSignatureId = sigId then
      (db.fixes.find? (fun f => f.id = a.fixId)).map
        (fun f => (f, a.successCount, a.failureCount))
    else none)
  (sortDescBy (fun j => ((j.2.1 : ℚ), j.1.lastApplied)) joined).take limit

/-- Result shapes of AIMemory.searchSimilarErrors. -/
inductive AISearchResult where
  | exact (found : SigRow) (fixes : List (FixRow × Nat × Nat)) (confidence : ℚ)
  | fuzzy (ms : List (SigRow × List (FixRow × Nat × Nat) × ℚ)) (count : Nat)

/-- searchSimilarErrors(query, limit): exact signature match with joined
    fixes at confidence 1.0, else the LIKE-based fallback scored by the CASE
    expression and ordered by similarity then occurrence count. -/
def searchSimilarErrors (digest : String → String) (db : DB) (query : String)
    (limit : Nat) : AISearchResult :=
  let queryHash := generateErrorSignature digest query
  match db.sigs.find? (fun r => r.signature = queryHash) with
  | some exactMatch =>
    .exact exactMatch (fixesForSig db exactMatch.id limit) 1
  | none =>
    let rows := db.sigs.filter (fun r =>
      likeContains r.pattern query || likeContains r.errorType query)
    let ordered := sortDescBy (fun r => (similarityOf r query, r.occurrenceCount)) rows
    let top := ordered.take limit
    let results := top.map (fun r => (r, fixesForSig db r.id 3, similarityOf r query))
    .fuzzy results results.length

/-- recordFix(errorSignature, fixDescription, fixCode, context): record the
    signature, INSERT a fresh fixes row, then INSERT OR IGNORE an association
    (which, the fix id being fresh, always inserts with success_count 1).
    Returns (fixId, errorId). -/
def recordFix (digest : String → String) (db : DB) (errorSignature : String)
    (fixDescription : String) (fixCode : Option String) (context : Option String)
    (now : Nat) : (Nat × Nat) × DB :=
  let (errorId, db1) := recordErrorSignature digest db errorSignature none none now
  let fixId := db1.nextFixId
  let fixRow : FixRow := ⟨fixId, errorId, fixDescription, fixCode, context, 1, 1, now, now⟩
  let db2 := { db1 with fixes := db1.fixes ++ [fixRow], nextFixId := fixId + 1 }
  let db3 :=
    if db2.assocs.any (fun a => a.errorSignatureId = errorId ∧ a.fixId = fixId) then db2
    else
      let aid := db2.nextAssocId
      { db2 with assocs := db2.assocs ++ [⟨aid, errorId, fixId, 1, 0, now⟩],
                 nextAssocId := aid + 1 }
  ((fixId, errorId), db3)

end AIMemory

/-! Tool Executor (toolExecutor.js).  Collaborators (arduino-cli service,
    serial monitor, renderer UI callbacks, ErrorMemory) are modelled at their
    boundary as environment-supplied functions that may throw; the
    SimpleMemory instance wired in as aiMemory is modelled in full.  Mutable
    executor state (the memory document, the serial buffer, the clock, and a
    ghost log of which handlers ran) is threaded explicitly as a World. -/

/-- The arguments object of a tool call. -/
abbrev Args := List (String × JsVal)

/-- A failure thrown by the arduino-cli collaborator (err.message plus the
    captured process streams read by the handlers). -/
structure SvcErr where
  message : String
  stdout : Option String
  stderr : Option String

/-- A successful compile result from the collaborator. -/
structure CompileOk where
  output : Option String
  warnings : Option (List String)
  message : Option String

/-- A successful upload result from the collaborator. -/
structure UploadOk where
  output : Option String
  port : Option String
  message : Option String

/-- The arduino-cli collaborator boundary. -/
structure ArduinoSvc where
  compile : String → String → Except SvcErr CompileOk
  upload : String → String → String → Except SvcErr UploadOk
  listBoards : Except JsError JsVal
  listPorts : Except JsError JsVal

/-- The serial-monitor collaborator boundary (always constructed with the
    executor in the application wiring). -/
structure SerialEnv where
  isConnected : Bool
  currentBaudRate : Option ℚ
  connect : String → ℚ → Except JsError Unit
  disconnect : Except JsError Unit
  send : String → Except JsError Unit
  tryBaudRates : Option (String → Except JsError (Option ℚ))

/-- The renderer UI callbacks; every callback is individually optional, as
    the executor tests each for presence before calling it. -/
structure UICallbacks where
  getCurrentSketchPath : Option (Except JsError (Option String))
  getSelectedBoard : Option (Except JsError (Option String))
  getSelectedPort : Option (Except JsError (Option String))
  saveSketch : Option (String → Except JsError Unit)
  getBaudRate : Option (Except JsError JsVal)
  setBaudRate : Option (ℚ → Except JsError Unit)
  getEditorCode : Option (Except JsError String)
  setEditorCode : Option (String → Except JsError Unit)

/-- The executor environment: collaborator behaviours plus modelling
    parameters (the SHA-256 hex digest, the JS RegExp test oracle, and the
    wall-clock duration a dispatched call consumes). -/
structure Env where
  arduino : ArduinoSvc
  serial : SerialEnv
  ui : Option UICallbacks
  errorMemory : Option (String → Except JsError JsVal)
  aiMemoryPresent : Bool
  digest : String → String
  regexTest : String → String → Bool
  duration : ToolCall → Nat

/-- Executor-visible mutable state. handlerCalls is a ghost spy recording
    which switch branch (collaborator handler) ran, in order. -/
structure World where
  mem : SimpleMemory.MemoryState
  serialBuffer : List JsVal
  handlerCalls : List String
  clock : Nat

/-- A world with an empty store and buffer. -/
def World.empty : World := ⟨SimpleMemory.MemoryState.empty, [], [], 0⟩

/-- JS (a or b) on nullable strings, with the empty string falsy. -/
def jsOrOpt (a b : Option String) : Option String :=
  match a with
  | some s => if s = "" then b else some s
  | none => b

/-- JS (a or d) coercion of a nullable string to a string default. -/
def jsOrStr (a : Option String) (d : String) : String :=
  match a with
  | some s => if s = "" then d else s
  | none => d

/-- Undefined-tolerant injection of a nullable string into a value. -/
def jsOfOptStr : Option String → JsVal
  | some s => .str s
  | none => .undefined

/-- Null-returning injection of a nullable string into a value. -/
def jsOfOptStrNull : Option String → JsVal
  | some s => .str s
  | none => .null

/-- JS truthiness. -/
def jsTruthy : JsVal → Bool
  | .null => false
  | .undefined => false
  | .bool b => b
  | .num q => q ≠ 0
  | .str s => s ≠ ""
  | .arr _ => true
  | .obj _ => true

/-- A Boolean-ish argument with a destructuring default. -/
def argTruthy (args : Args) (k : String) : Bool :=
  match argGet args k with
  | some v => jsTruthy v
  | none => false

/-- A numeric argument read as a natural count with a destructuring default
    (the handlers below only ever use such counts non-negatively). -/
def argNat (args : Args) (k : String) (dflt : Nat) : Nat :=
  match argGet args k with
  | some (.num q) => if q.den = 1 ∧ 0 ≤ q.num then q.num.toNat else dflt
  | _ => dflt

/-- A numeric argument read as a JS integer line number. -/
def argInt (args : Args) (k : String) : Int :=
  match argGet args k with
  | some (.num q) => q.floor
  | _ => 0

/-- this.availableBaudRates. -/
def availableBaudRates : List ℚ :=
  [300, 1200, 2400, 4800, 9600, 19200, 38400,
   57600, 74880, 115200, 230400, 250000, 500000, 1000000, 2000000]

/-- Approximate JS template rendering of a value (exact on the numeric and
    string cases, the only ones reached by the messages under study). -/
def jsDisplay : JsVal → String
  | .null => "null"
  | .undefined => "undefined"
  | .bool b => cond b "true" "false"
  | .num q => ratDisplay q
  | .str s => s
  | .arr _ => "[array]"
  | .obj _ => "[object Object]"

/-- executeCompile(args): resolve sketch path and board from the arguments
    or the UI snapshot, fail with an actionable message when unresolved,
    save the editor buffer, then run the compiler, catching its failure. -/
def executeCompile (env : Env) (args : Args) : Except JsError JsVal := do
  let sp0 := jsTrim (argStr args "sketchPath")
  let bf0 := jsTrim (argStr args "boardFQBN")
  let sketchPath ←
    match env.ui with
    | some ui =>
      if sp0 = "" then
        match ui.getCurrentSketchPath with
        | some get => do
          let v ← get
          pure (v.getD "")
        | none => pure sp0
      else pure sp0
    | none => pure sp0
  let boardFQBN ←
    match env.ui with
    | some ui =>
      if bf0 = "" then
        match ui.getSelectedBoard with
        | some get => do
          let v ← get
          pure (v.getD "")
        | none => pure bf0
      else pure bf0
    | none => pure bf0
  if sketchPath = "" then
    pure (.obj [("success", .bool false),
      ("error", .str "No sketch open. Please open a .ino file first (Open Sketch in the sidebar).")])
  else if boardFQBN = "" then
    pure (.obj [("success", .bool false),
      ("error", .str "No board selected. Please select a board from the Board dropdown in the sidebar.")])
  else do
    match env.ui with
    | some ui =>
      match ui.saveSketch with
      | some save => save sketchPath
      | none => pure ()
    | none => pure ()
    match env.arduino.compile sketchPath boardFQBN with
    | .ok cr =>
      pure (.obj [("output", jsOfOptStr cr.output),
                  ("warnings", .arr ((cr.warnings.getD []).map .str)),
                  ("success", .bool true),
                  ("message", jsOfOptStr cr.message)])
    | .error err =>
      pure (.obj [("success", .bool false), ("error", .str err.message),
                  ("output", jsOfOptStr (jsOrOpt err.stdout err.stderr))])

/-- executeUpload(args): like compile but also resolving the port,
    disconnecting an open serial connection first, and saving before upload. -/
def executeUpload (env : Env) (args : Args) : Except JsError JsVal := do
  let sp0 := jsTrim (argStr args "sketchPath")
  let bf0 := jsTrim (argStr args "boardFQBN")
  let pt0 := jsTrim (argStr args "port")
  let sketchPath ←
    match env.ui with
    | some ui =>
      if sp0 = "" then
        match ui.getCurrentSketchPath with
        | some get => do
          let v ← get
          pure (v.getD "")
        | none => pure sp0
      else pure sp0
    | none => pure sp0
  let boardFQBN ←
    match env.ui with
    | some ui =>
      if bf0 = "" then
        match ui.getSelectedBoard with
        | some get => do
          let v ← get
          pure (v.getD "")
        | none => pure bf0
      else pure bf0
    | none => pure bf0
  let port ←
    match env.ui with
    | some ui =>
      if pt0 = "" then
        match ui.getSelectedPort with
        | some get => do
          let v ← get
          pure (v.getD "")
        | none => pure pt0
      else pure pt0
    | none => pure pt0
  if sketchPath = "" then
    pure (.obj [("success", .bool false),
      ("error", .str "No sketch open. Please open a .ino file first (Open Sketch in the sidebar).")])
  else if boardFQBN = "" then
    pure (.obj [("success", .bool false),
      ("error", .str "No board selected. Please select a board from the Board dropdown.")])
  else if port = "" then
    pure (.obj [("success", .bool false),
      ("error", .str "No port selected. Please select a port from the Port dropdown (and connect your board via USB).")])
  else do
    if env.serial.isConnected then env.serial.disconnect else pure ()
    match env.ui with
    | some ui =>
      match ui.saveSketch with
      | some save => save sketchPath
      | none => pure ()
    | none => pure ()
    match env.arduino.upload sketchPath boardFQBN port with
    | .ok ur =>
      pure (.obj [("output", jsOfOptStr ur.output),
                  ("port", jsOfOptStr ur.port),
                  ("success", .bool true),
                  ("message", .str (jsOrStr ur.message "Upload complete"))])
    | .error err =>
      pure (.obj [("success", .bool false), ("error", .str err.message),
                  ("output", jsOfOptStr (jsOrOpt err.stdout err.stderr))])

/-- executeListBoards(). -/
def executeListBoards (env : Env) : Except JsError JsVal := do
  let boards ← env.arduino.listBoards
  pure (.obj [("boards", boards)])

/-- executeListPorts(). -/
def executeListPorts (env : Env) : Except JsError JsVal := do
  let ports ← env.arduino.listPorts
  pure (.obj [("ports", ports)])

/-- executeConnectSerial(args).  (The data-event listener that feeds the
    serial buffer is event-loop plumbing outside the per-call semantics.) -/
def executeConnectSerial (env : Env) (args : Args) : Except JsError JsVal := do
  let port := argStr args "port"
  let baudRate : ℚ :=
    match argGet args "baudRate" with
    | some (.num q) => q
    | _ => 115200
  env.serial.connect port baudRate
  pure (.obj [("port", .str port), ("baudRate", .num baudRate), ("connected", .bool true)])

/-- executeDisconnectSerial(). -/
def executeDisconnectSerial (env : Env) : Except JsError JsVal := do
  env.serial.disconnect
  pure (.obj [("connected", .bool false)])

/-- executeSendSerial(args). -/
def executeSendSerial (env : Env) (args : Args) : Except JsError JsVal := do
  env.serial.send (argStr args "data")
  pure (.obj [("sent", .str (argStr args "data"))])

/-- executeReadSerial(args): the tail of the buffered serial output.
    (slice(-lines) returns the whole array when lines is 0.) -/
def executeReadSerial (args : Args) (buffer : List JsVal) : JsVal :=
  let lines := argNat args "lines" 50
  let recent := if lines = 0 then buffer else buffer.drop (buffer.length - lines)
  .obj [("lines", .arr recent), ("totalBuffered", .num buffer.length)]

/-- executeAutoDetectBaud(args).  (A detected rate of 0 is falsy in JS and
    falls through to the failure result.) -/
def executeAutoDetectBaud (env : Env) (args : Args) : Except JsError JsVal := do
  let port := argStr args "port"
  match env.serial.tryBaudRates with
  | some tryRates => do
    let detected ← tryRates port
    match detected with
    | some b =>
      if b = 0 then
        pure (.obj [("success", .bool false),
          ("error", .str "Could not detect baud rate"), ("port", .str port)])
      else
        pure (.obj [("success", .bool true), ("baudRate", .num b), ("port", .str port)])
    | none =>
      pure (.obj [("success", .bool false),
        ("error", .str "Could not detect baud rate"), ("port", .str port)])
  | none =>
    pure (.obj [("success", .bool false),
      ("error", .str "Could not detect baud rate"), ("port", .str port)])

/-- executeGetBaudRate(): UI callback first, then the monitor's current rate
    (0 being falsy), then the no-information result. -/
def executeGetBaudRate (env : Env) : Except JsError JsVal := do
  let viaMonitor : JsVal :=
    match env.serial.currentBaudRate with
    | some q =>
      if q = 0 then
        .obj [("baudRate", .null), ("error", .str "No baud rate information available")]
      else .obj [("baudRate", .num q)]
    | none =>
      .obj [("baudRate", .null), ("error", .str "No baud rate information available")]
  match env.ui with
  | some ui =>
    match ui.getBaudRate with
    | some get => do
      let v ← get
      pure (.obj [("baudRate", v)])
    | none => pure viaMonitor
  | none => pure viaMonitor

/-- executeSetBaudRate(args). -/
def executeSetBaudRate (env : Env) (args : Args) : Except JsError JsVal := do
  let rawRate := (argGet args "baudRate").getD .undefined
  let invalidMsg := "Invalid baud rate: " ++ jsDisplay rawRate ++ ". Available rates: " ++
    String.intercalate ", " (availableBaudRates.map ratDisplay)
  match rawRate with
  | .num q =>
    if availableBaudRates.contains q then
      match env.ui with
      | some ui =>
        match ui.setBaudRate with
        | some set => do
          set q
          pure (.obj [("success", .bool true), ("baudRate", .num q)])
        | none =>
          pure (.obj [("success", .bool false),
            ("error", .str "Unable to set baud rate - UI callback not available")])
      | none =>
        pure (.obj [("success", .bool false),
          ("error", .str "Unable to set baud rate - UI callback not available")])
    else pure (.obj [("success", .bool false), ("error", .str invalidMsg)])
  | _ => pure (.obj [("success", .bool false), ("error", .str invalidMsg)])

/-- executeGetAvailableBaudRates(). -/
def executeGetAvailableBaudRates : JsVal :=
  .obj [("baudRates", .arr (availableBaudRates.map .num))]

/-- executeGetEditorCode(). -/
def executeGetEditorCode (env : Env) : Except JsError JsVal := do
  match env.ui with
  | some ui =>
    match ui.getEditorCode with
    | some get => do
      let code ← get
      pure (.obj [("code", .str code)])
    | none =>
      pure (.obj [("code", .null),
        ("error", .str "Unable to get editor code - UI callback not available")])
  | none =>
    pure (.obj [("code", .null),
      ("error", .str "Unable to get editor code - UI callback not available")])

/-- executeSetEditorCode(args). -/
def executeSetEditorCode (env : Env) (args : Args) : Except JsError JsVal := do
  match env.ui with
  | some ui =>
    match ui.setEditorCode with
    | some set => do
      set (argStr args "code")
      pure (.obj [("success", .bool true)])
    | none =>
      pure (.obj [("success", .bool false),
        ("error", .str "Unable to set editor code - UI callback not available")])
  | none =>
    pure (.obj [("success", .bool false),
      ("error", .str "Unable to set editor code - UI callback not available")])

/-- JS String.prototype.replace with an empty global pattern: the
    replacement lands at every gap, characters kept. -/
def jsReplaceEmptyAux (rep : List Char) : List Char → List Char
  | [] => rep
  | c :: rest => rep ++ c :: jsReplaceEmptyAux rep rest

/-- Scan replacing every non-overlapping occurrence of a non-empty needle,
    returning the count of replacements and the rewritten text. -/
def replaceScan (needle rep : List Char) : List Char → Nat × List Char
  | [] => (0, [])
  | c :: rest =>
    if needle.isPrefixOf (c :: rest) then
      let next := replaceScan needle rep (rest.drop (needle.length - 1))
      (next.1 + 1, rep ++ next.2)
    else
      let next := replaceScan needle rep rest
      (next.1, c :: next.2)
termination_by l => l.length
decreasing_by
  · simp only [List.length_drop, List.length_cons]
    omega
  · simp only [List.length_cons]
    omega

/-- Global escaped-literal replace: occurrence count and rewritten string. -/
def jsReplaceCount (hay needle rep : List Char) : Nat × List Char :=
  if needle.isEmpty then (hay.length + 1, jsReplaceEmptyAux rep hay)
  else replaceScan needle rep hay

/-- hay.indexOf(needle). -/
def firstIdxOf (hay needle : List Char) : Option Nat :=
  (List.range (hay.length + 1)).find? (fun i => needle.isPrefixOf (hay.drop i))

/-- executeEditCode(args): line-based replace/insert/delete on the editor
    buffer, with JS slice index semantics and JS truthiness of endLine and
    newCode. -/
def executeEditCode (env : Env) (args : Args) : Except JsError JsVal := do
  let failObj : JsVal := .obj [("success", .bool false),
    ("error", .str "Unable to edit code - UI callbacks not available")]
  match env.ui with
  | none => pure failObj
  | some ui =>
    match ui.getEditorCode, ui.setEditorCode with
    | some get, some set => do
      let currentCode ← get
      let lines := currentCode.splitOn "\n"
      let operation := argStr args "operation"
      let startLine := argInt args "startLine"
      let endLineOpt : Option Int :=
        match argGet args "endLine" with
        | some (.num q) => some q.floor
        | _ => none
      let start := startLine - 1
      let stop :=
        match endLineOpt with
        | some e => if e = 0 then start else e - 1
        | none => start
      let newCodeLines : List String :=
        match argGet args "newCode" with
        | some (.str s) => if s = "" then [] else s.splitOn "\n"
        | _ => []
      let newLines? : Option (List String) :=
        match operation with
        | "replace" =>
          some (jsSliceStrs lines 0 start ++ newCodeLines ++
                jsSliceStrs lines (stop + 1) lines.length)
        | "insert" =>
          some (jsSliceStrs lines 0 start ++ newCodeLines ++
                jsSliceStrs lines start lines.length)
        | "delete" =>
          some (jsSliceStrs lines 0 start ++ jsSliceStrs lines (stop + 1) lines.length)
        | _ => none
      match newLines? with
      | none =>
        pure (.obj [("success", .bool false),
          ("error", .str ("Unknown operation: " ++ operation))])
      | some newLines => do
        set (String.intercalate "\n" newLines)
        pure (.obj [("success", .bool true), ("operation", .str operation),
                    ("linesAffected", .num ((stop - start + 1 : Int) : ℚ)),
                    ("newLineCount", .num newLines.length)])
    | _, _ => pure failObj

/-- executeSearchCode(args): line scan, case-insensitive substring match or
    the RegExp oracle, matches capped at 50. -/
def executeSearchCode (env : Env) (args : Args) : Except JsError JsVal := do
  match env.ui with
  | none =>
    pure (.obj [("success", .bool false),
      ("error", .str "Unable to search code - UI callback not available")])
  | some ui =>
    match ui.getEditorCode with
    | none =>
      pure (.obj [("success", .bool false),
        ("error", .str "Unable to search code - UI callback not available")])
    | some get => do
      let code ← get
      let searchText := argStr args "searchText"
      let isRegex := argTruthy args "isRegex"
      let lines := code.splitOn "\n"
      let found := lines.enum.filterMap (fun p =>
        let hit :=
          if isRegex then env.regexTest searchText p.2
          else jsIncludes (jsToLower p.2) (jsToLower searchText)
        if hit then
          some (JsVal.obj [("lineNumber", .num (p.1 + 1)),
                           ("content", .str (jsTrim p.2))])
        else none)
      pure (.obj [("searchText", .str searchText),
                  ("matchCount", .num found.length),
                  ("matches", .arr (found.take 50))])

/-- executeReplaceInCode(args): escaped-literal global replace or first
    occurrence splice, reporting the replacement count. -/
def executeReplaceInCode (env : Env) (args : Args) : Except JsError JsVal := do
  let failObj : JsVal := .obj [("success", .bool false),
    ("error", .str "Unable to replace in code - UI callbacks not available")]
  match env.ui with
  | none => pure failObj
  | some ui =>
    match ui.getEditorCode, ui.setEditorCode with
    | some get, some set => do
      let code ← get
      let searchText := argStr args "searchText"
      let replaceText := argStr args "replaceText"
      let replaceAll := argTruthy args "replaceAll"
      let (count, newCode) :=
        if replaceAll then
          let cr := jsReplaceCount code.data searchText.data replaceText.data
          (cr.1, (⟨cr.2⟩ : String))
        else
          match firstIdxOf code.data searchText.data with
          | some i =>
            (1, (⟨code.data.take i ++ replaceText.data ++
                  code.data.drop (i + searchText.data.length)⟩ : String))
          | none => (0, code)
      set newCode
      pure (.obj [("success", .bool true), ("searchText", .str searchText),
                  ("replaceText", .str replaceText), ("replacementCount", .num count)])
    | _, _ => pure failObj

/-- executeGetCurrentSketchPath(). -/
def executeGetCurrentSketchPath (env : Env) : Except JsError JsVal := do
  match env.ui with
  | some ui =>
    match ui.getCurrentSketchPath with
    | some get => do
      let p ← get
      pure (.obj [("path", jsOfOptStrNull p)])
    | none =>
      pure (.obj [("path", .null),
        ("error", .str "Unable to get sketch path - UI callback not available")])
  | none =>
    pure (.obj [("path", .null),
      ("error", .str "Unable to get sketch path - UI callback not available")])

/-- executeSaveSketch(args). -/
def executeSaveSketch (env : Env) (args : Args) : Except JsError JsVal := do
  match env.ui with
  | some ui =>
    match ui.saveSketch with
    | some save => do
      save (argStr args "path")
      pure (.obj [("success", .bool true), ("path", (argGet args "path").getD .undefined)])
    | none =>
      pure (.obj [("success", .bool false),
        ("error", .str "Unable to save sketch - UI callback not available")])
  | none =>
    pure (.obj [("success", .bool false),
      ("error", .str "Unable to save sketch - UI callback not available")])

/-- executeAnalyzeError(args): memory search first (limit default 10), then
    the ErrorMemory pattern analysis, both folded into one result. -/
def executeAnalyzeError (env : Env) (args : Args) (w : World) : Except JsError JsVal := do
  let errorMessage := argStr args "errorMessage"
  let contextV := (argGet args "context").getD .undefined
  let memoryResults : JsVal :=
    if env.aiMemoryPresent then
      (SimpleMemory.searchSimilarErrors env.digest w.mem errorMessage 10).toJs
    else .arr []
  let analyzedError ←
    match env.errorMemory with
    | some analyze => analyze errorMessage
    | none => pure (.obj [("suggestions", .arr [])])
  pure (.obj [("errorMessage", .str errorMessage), ("context", contextV),
              ("memoryMatches", memoryResults),
              ("patternAnalysis", analyzedError),
              ("suggestions", (analyzedError.objGet "suggestions").getD .undefined)])

/-- executeSearchMemory(args). -/
def executeSearchMemory (env : Env) (args : Args) (w : World) : JsVal :=
  let query := argStr args "query"
  let limit := argNat args "limit" 10
  if env.aiMemoryPresent then
    .obj [("results", (SimpleMemory.searchSimilarErrors env.digest w.mem query limit).toJs)]
  else .obj [("results", .arr [])]

/-- executeRecordFix(args): record into the wired SimpleMemory store. -/
def executeRecordFix (env : Env) (args : Args) (w : World) : JsVal × World :=
  let errorSignature := argStr args "errorSignature"
  let fixText := argStr args "fix"
  let contextS : Option String :=
    match argGet args "context" with
    | some (.str s) => some s
    | _ => none
  if env.aiMemoryPresent then
    let recorded := SimpleMemory.recordFix w.mem errorSignature fixText contextS w.clock
    (.obj [("record", recorded.1.toJs)], { w with mem := recorded.2 })
  else
    (.obj [("success", .bool false), ("error", .str "Memory not available")], w)

/-- executeGetCurrentState(). -/
def executeGetCurrentState (env : Env) (w : World) : Except JsError JsVal := do
  let base : List (String × JsVal) :=
    [("serialConnected", .bool env.serial.isConnected),
     ("serialBufferSize", .num w.serialBuffer.length),
     ("availableBaudRates", .arr (availableBaudRates.map .num)),
     ("currentSerialBaudRate",
      match env.serial.currentBaudRate with
      | some q => .num q
      | none => .null)]
  match env.ui with
  | none => pure (.obj base)
  | some ui => do
    let f1 ←
      match ui.getBaudRate with
      | some get => do
        let v ← get
        pure [("currentBaudRate", v)]
      | none => pure []
    let f2 ←
      match ui.getCurrentSketchPath with
      | some get => do
        let v ← get
        pure [("currentSketchPath", jsOfOptStrNull v)]
      | none => pure []
    let f3 ←
      match ui.getSelectedBoard with
      | some get => do
        let v ← get
        pure [("selectedBoard", jsOfOptStrNull v)]
      | none => pure []
    let f4 ←
      match ui.getSelectedPort with
      | some get => do
        let v ← get
        pure [("selectedPort", jsOfOptStrNull v)]
      | none => pure []
    pure (.obj (base ++ f1 ++ f2 ++ f3 ++ f4))

/-- The outcome of the dispatch switch: a handler result that falls through
    to the execution-recording epilogue, or the default (unknown-name) branch
    that returns from execute directly. -/
inductive DispatchOut where
  | handled (r : JsVal)
  | unknown

/-- The switch statement of execute(): route by name to the handler,
    recording the entered branch in the ghost handler log.  The default
    branch invokes no handler. -/
def dispatch (env : Env) (tc : ToolCall) (w : World) : Except JsError DispatchOut × World :=
  let logged := { w with handlerCalls := w.handlerCalls ++ [tc.name] }
  match tc.name with
  | "compile_sketch" => ((executeCompile env tc.arguments).map .handled, logged)
  | "upload_sketch" => ((executeUpload env tc.arguments).map .handled, logged)
  | "list_boards" => ((executeListBoards env).map .handled, logged)
  | "list_ports" => ((executeListPorts env).map .handled, logged)
  | "connect_serial" => ((executeConnectSerial env tc.arguments).map .handled, logged)
  | "disconnect_serial" => ((executeDisconnectSerial env).map .handled, logged)
  | "send_serial" => ((executeSendSerial env tc.arguments).map .handled, logged)
  | "read_serial" =>
    (.ok (.handled (executeReadSerial tc.arguments logged.serialBuffer)), logged)
  | "auto_detect_baud" => ((executeAutoDetectBaud env tc.arguments).map .handled, logged)
  | "get_baud_rate" => ((executeGetBaudRate env).map .handled, logged)
  | "set_baud_rate" => ((executeSetBaudRate env tc.arguments).map .handled, logged)
  | "get_available_baud_rates" => (.ok (.handled executeGetAvailableBaudRates), logged)
  | "get_editor_code" => ((executeGetEditorCode env).map .handled, logged)
  | "set_editor_code" => ((executeSetEditorCode env tc.arguments).map .handled, logged)
  | "edit_code" => ((executeEditCode env tc.arguments).map .handled, logged)
  | "search_code" => ((executeSearchCode env tc.arguments).map .handled, logged)
  | "replace_in_code" => ((executeReplaceInCode env tc.arguments).map .handled, logged)
  | "get_current_sketch_path" =>
    ((executeGetCurrentSketchPath env).map .handled, logged)
  | "save_sketch" => ((executeSaveSketch env tc.arguments).map .handled, logged)
  | "analyze_error" =>
    ((executeAnalyzeError env tc.arguments logged).map .handled, logged)
  | "search_memory" =>
    (.ok (.handled (executeSearchMemory env tc.arguments logged)), logged)
  | "record_fix" =>
    let out := executeRecordFix env tc.arguments logged
    (.ok (.handled out.1), out.2)
  | "get_current_state" => ((executeGetCurrentState env logged).map .handled, logged)
  | _ => (.ok .unknown, w)

/-- The (result.success not-strictly-equal false) flag recorded per execution. -/
def resultSuccessFlag (r : JsVal) : Bool :=
  match r.objGet "success" with
  | some (.bool false) => false
  | _ => true

/-- The result.error text (when it is a string) recorded per execution. -/
def resultErrorMsg (r : JsVal) : Option String :=
  match r.objGet "error" with
  | some (.str s) => some s
  | _ => none

/-- execute(toolCall): validate, dispatch inside the try boundary, record the
    execution for handled calls, and wrap the handler result in a
    success envelope; a thrown error is caught and converted to a failure
    envelope.  The Except channel is the promise-rejection channel of
    execute itself. -/
def executeE (env : Env) (tc : ToolCall) (w : World) : Except JsError (JsVal × World) :=
  match validateToolCall tc with
  | .error e =>
    .ok (.obj [("success", .bool false), ("error", .str e), ("tool", .str tc.name)], w)
  | .ok _ =>
    let w1 := { w with clock := w.clock + env.duration tc }
    match dispatch env tc w1 with
    | (.error err, w2) =>
      .ok (.obj [("success", .bool false), ("error", .str err.message),
                 ("tool", .str tc.name), ("stack", .str "")], w2)
    | (.ok .unknown, w2) =>
      .ok (.obj [("success", .bool false),
                 ("error", .str ("Unknown tool: " ++ tc.name)),
                 ("tool", .str tc.name)], w2)
    | (.ok (.handled result), w2) =>
      let mem' := SimpleMemory.recordExecution w2.mem tc.name tc.arguments
        (resultSuccessFlag result) (resultErrorMsg result) w2.clock
      let w3 := if env.aiMemoryPresent then { w2 with mem := mem' } else w2
      .ok (.obj [("success", .bool true), ("tool", .str tc.name), ("result", result)], w3)

/-! Agent Orchestrator (agent.js).  The provider adapter is modelled at its
    boundary as a chat function from the message list and tool list, which
    may fail (a ProviderError rejects).  Conversation history, the executor
    World, and ghost observation data (the count of provider round-trips,
    the per-round executor invocation order) are threaded explicitly. -/

/-- Orchestrator modes. -/
inductive AgentMode
  | agent
  | ask
  | debug
deriving DecidableEq

/-- The IDE context object handed to processQuery. -/
structure IdeContext where
  hasFileOpen : Bool
  currentSketchPath : Option String
  selectedBoard : Option String
  selectedPort : Option String

/-- Conversation messages.  An assistant message may carry proposed tool
    calls (stored serialised in JS; kept structured here, losslessly). -/
inductive AgentMsg where
  | system (content : String)
  | user (content : String)
  | assistant (content : Option String) (toolCalls : List ToolCall)
  | tool (toolCallId : String) (name : String) (content : String)

/-- A normalised provider response. -/
structure ChatResp where
  content : Option String
  toolCalls : List ToolCall
  usage : Option JsVal
  modelName : Option String

/-- The provider boundary: currentProvider.chat(messages, options), with the
    options' tool list made explicit (temperature and max_tokens do not
    influence the orchestration control flow). -/
abbrev ChatFn := List AgentMsg → List ToolDef → Except JsError ChatResp

/-- Agent configuration (constructor default: maxIterations 10). -/
structure AgentConfig where
  maxIterations : Nat

/-- The result object of processQuery. -/
structure QueryResult where
  response : Option String
  toolResults : List JsVal
  usage : Option JsVal
  modelName : Option String
  warning : Option String

/-- getSystemPrompt(mode) from systemPrompt.js; the prompt texts are opaque
    to the orchestration control flow and abbreviated here. -/
def getSystemPrompt : AgentMode → String
  | .ask => "ASK_PROMPT"
  | .debug => "DEBUG_PROMPT"
  | .agent => "SYSTEM_PROMPT"

/-- The private tools-for-mode selection. -/
def getToolsForMode : AgentMode → List ToolDef
  | .ask => []
  | .debug => getDebugTools
  | .agent => getAllTools

/-- JS truthiness of an optional string (empty string falsy). -/
def optTruthy : Option String → Option String
  | some s => if s = "" then none else some s
  | none => none

/-- The bracketed IDE-context prefix prepended to the user text. -/
def buildUserContent (userQuery : String) (ctx : IdeContext) : String :=
  let tags : List String :=
    (if ¬ctx.hasFileOpen then ["NO_FILE_OPEN"]
     else
       match optTruthy ctx.currentSketchPath with
       | some p => ["sketch=" ++ p]
       | none => []) ++
    (match optTruthy ctx.selectedBoard with
     | some b => ["board=" ++ b]
     | none => []) ++
    (match optTruthy ctx.selectedPort with
     | some p => ["port=" ++ p]
     | none => [])
  if tags.isEmpty then userQuery
  else "[IDE: " ++ String.intercalate ", " tags ++ "]\n\n" ++ userQuery

/-- Serialisation of a tool result into the tool message content
    (string escaping, and the omission of undefined-valued fields performed
    by JSON.stringify, are elided: the text is never re-parsed here). -/
def jsonStringify : JsVal → String
  | .null => "null"
  | .undefined => "null"
  | .bool b => cond b "true" "false"
  | .num q => ratDisplay q
  | .str s => "\"" ++ s ++ "\""
  | .arr xs => "[" ++ String.intercalate ","
      (xs.attach.map (fun x => jsonStringify x.1)) ++ "]"
  | .obj fs => "\x7b" ++ String.intercalate ","
      (fs.attach.map (fun p =>
        "\"" ++ p.1.1 ++ "\":" ++ jsonStringify p.1.2)) ++ "\x7d"
termination_by v => sizeOf v
decreasing_by
  · have h := List.sizeOf_lt_of_mem x.2
    simp only [JsVal.arr.sizeOf_spec]
    omega
  · have h := List.sizeOf_lt_of_mem p.2
    have h2 : sizeOf p.1.2 < sizeOf p.1 := by
      obtain ⟨k, v⟩ := p.1
      simp
    simp only [JsVal.obj.sizeOf_spec]
    omega

/-- result.executionTime = t, applied to object results. -/
def attachTime (r : JsVal) (t : Nat) : JsVal :=
  match r with
  | .obj fields => .obj (JsVal.setField fields "executionTime" (.num t))
  | other => other

/-- The inner for-loop of processQuery over one response's tool calls:
    execute each sequentially, attach the wall-clock execution time, append
    the result, and append one tool message correlated by the call id.  The
    final component is a ghost log of executor invocations in order. -/
def runToolCalls (env : Env) :
    List ToolCall → List AgentMsg → List JsVal → World →
    Except JsError (List AgentMsg × List JsVal × World × List (String × String))
  | [], messages, acc, w => .ok (messages, acc, w, [])
  | tc :: rest, messages, acc, w =>
    match executeE env tc w with
    | .error e => .error e
    | .ok (result, w') =>
      let executionTime := w'.clock - w.clock
      let result' := attachTime result executionTime
      let toolMsg := AgentMsg.tool tc.id tc.name (jsonStringify result')
      match runToolCalls env rest (messages ++ [toolMsg]) (acc ++ [result']) w' with
      | .error e => .error e
      | .ok (m, a, w2, log) => .ok (m, a, w2, (tc.name, tc.id) :: log)

/-- The response text of the iteration-limit result. -/
def iterationLimitText : String :=
  "Maximum iterations reached. Please refine your query."

/-- The while-loop of processQuery, with the remaining iteration budget as
    fuel (the source counts iteration upward to maxIterations).  Returns the
    query result, the updated conversation history, the world, and a ghost
    count of provider round-trips. -/
def agentLoop (chat : ChatFn) (env : Env) (tools : List ToolDef) :
    Nat → List AgentMsg → List AgentMsg → List JsVal → World → Nat →
    Except JsError (QueryResult × List AgentMsg × World × Nat)
  | 0, _messages, history, acc, w, calls =>
    .ok (⟨some iterationLimitText, acc, none, none, some "max_iterations_reached"⟩,
         history, w, calls)
  | fuel + 1, messages, history, acc, w, calls =>
    match chat messages tools with
    | .error e => .error e
    | .ok resp =>
      if resp.toolCalls.isEmpty then
        let history' :=
          match optTruthy resp.content with
          | some c => history ++ [.assistant (some c) []]
          | none => history
        .ok (⟨resp.content, acc, resp.usage, resp.modelName, none⟩,
             history', w, calls + 1)
      else
        let assistantMsg := AgentMsg.assistant resp.content resp.toolCalls
        match runToolCalls env resp.toolCalls (messages ++ [assistantMsg]) acc w with
        | .error e => .error e
        | .ok (msgs', acc', w', _log) =>
          agentLoop chat env tools fuel msgs' history acc' w' (calls + 1)

/-- processQuery(userQuery, context, mode): throws when no provider is
    selected; ask mode is a single tool-free round-trip; otherwise the
    iterative tool loop runs under the maxIterations cap. -/
def processQuery (provider : Option ChatFn) (cfg : AgentConfig) (env : Env)
    (userQuery : String) (ctx : IdeContext) (mode : AgentMode)
    (history : List AgentMsg) (w : World) :
    Except JsError (QueryResult × List AgentMsg × World × Nat) :=
  match provider with
  | none => .error ⟨"No provider selected. Please set a provider first."⟩
  | some chat =>
    let toolsForMode := getToolsForMode mode
    let useTools := ¬toolsForMode.isEmpty
    let userContent := buildUserContent userQuery ctx
    let history1 := history ++ [AgentMsg.user userContent]
    let messages := AgentMsg.system (getSystemPrompt mode) :: history1
    if useTools then
      agentLoop chat env toolsForMode cfg.maxIterations messages history1 [] w 0
    else
      match chat messages toolsForMode with
      | .error e => .error e
      | .ok resp =>
        let history2 :=
          match optTruthy resp.content with
          | some c => history1 ++ [.assistant (some c) []]
          | none => history1
        .ok (⟨resp.content, [], resp.usage, resp.modelName, none⟩, history2, w, 1)

/-- Encode the IDE context object (as serialised into analysis queries; the
    2-space pretty-printing of JSON.stringify is elided). -/
def IdeContext.toJs (ctx : IdeContext) : JsVal :=
  .obj [("hasFileOpen", .bool ctx.hasFileOpen),
        ("currentSketchPath", jsOfOptStrNull ctx.currentSketchPath),
        ("selectedBoard", jsOfOptStrNull ctx.selectedBoard),
        ("selectedPort", jsOfOptStrNull ctx.selectedPort)]

/-- Encode a processQuery result object. -/
def QueryResult.toJs (r : QueryResult) : JsVal :=
  .obj [("response", jsOfOptStr r.response),
        ("toolResults", .arr r.toolResults),
        ("usage", r.usage.getD .undefined),
        ("model", jsOfOptStr r.modelName),
        ("warning", jsOfOptStr r.warning)]

/-- analyzeError(errorMessage, context): memory-first; an exact match with
    fixes is answered from memory at confidence 1.0; with no provider the
    memory evidence is returned alone; otherwise the provider path runs —
    but its query-augmentation statement reassigns the const query binding,
    so when fuzzy matches exist that path throws a TypeError. -/
def analyzeErrorE (provider : Option ChatFn) (cfg : AgentConfig) (env : Env)
    (errorMessage : String) (ctx : IdeContext) (history : List AgentMsg) (w : World) :
    Except JsError JsVal :=
  let memoryResults := SimpleMemory.searchSimilarErrors env.digest w.mem errorMessage 5
  let exactWithFixes : Option (SimpleMemory.ErrorRec × List SimpleMemory.FixRec) :=
    match memoryResults with
    | .exact found fixes _ => if fixes.isEmpty then none else some (found, fixes)
    | .fuzzy _ _ => none
  match exactWithFixes with
  | some (found, fixes) =>
    .ok (.obj [("source", .str "memory"), ("error", found.toJs),
               ("fixes", .arr (fixes.map SimpleMemory.FixRec.toJs)),
               ("confidence", .num 1)])
  | none =>
    match provider with
    | none =>
      let ms : List JsVal :=
        match memoryResults with
        | .fuzzy fuzz _ => fuzz.map (fun m =>
            JsVal.obj [("error", m.1.toJs),
                       ("fixes", .arr (m.2.1.map SimpleMemory.FixRec.toJs)),
                       ("confidence", .num m.2.2)])
        | .exact _ _ _ => []
      .ok (.obj [("source", .str "memory"), ("matches", .arr ms),
                 ("message", .str "No AI provider configured. Showing memory results only.")])
    | some _ =>
      let fuzzyNonEmpty : Bool :=
        match memoryResults with
        | .fuzzy fuzz _ => !fuzz.isEmpty
        | .exact _ _ _ => false
      if fuzzyNonEmpty then
        .error ⟨"Assignment to constant variable."⟩
      else
        let query := "Analyze this Arduino error and suggest fixes: " ++ errorMessage ++
          "\n\nContext: " ++ jsonStringify ctx.toJs
        match processQuery provider cfg env query ctx .agent history w with
        | .error e => .error e
        | .ok (result, _, _, _) =>
          .ok (.obj [("source", .str "ai"),
                     ("analysis", jsOfOptStr result.response),
                     ("memoryResults", memoryResults.toJs),
                     ("toolResults", .arr result.toolResults)])

/-- analyzeSerialOutput(serialOutput, lines): no-provider early return, else
    one processQuery in agent mode.  (The context object it passes carries
    no IDE fields, so every context tag is absent but NO_FILE_OPEN.) -/
def analyzeSerialOutputE (provider : Option ChatFn) (cfg : AgentConfig) (env : Env)
    (serialOutput : String) (history : List AgentMsg) (w : World) :
    Except JsError JsVal :=
  match provider with
  | none =>
    .ok (.obj [("source", .str "local"),
      ("message", .str "No AI provider configured. Serial output logged but not analyzed.")])
  | some _ =>
    let query := "Analyze this serial monitor output from an Arduino board:\n\n" ++
      serialOutput ++ "\n\nWhat is the board doing? Are there any issues?"
    match processQuery provider cfg env query ⟨false, none, none, none⟩ .agent history w with
    | .error e => .error e
    | .ok (result, _, _, _) => .ok result.toJs

/-! Concrete instantiations used by witnesses and counterexamples. -/

/-- An arduino collaborator whose every operation fails over to the catch
    branches (the service being absent from the test bench). -/
def stubArduino : ArduinoSvc :=
  ⟨fun _ _ => .error ⟨"arduino unavailable", none, none⟩,
   fun _ _ _ => .error ⟨"arduino unavailable", none, none⟩,
   .error ⟨"arduino unavailable"⟩,
   .error ⟨"arduino unavailable"⟩⟩

/-- A disconnected serial monitor. -/
def stubSerial : SerialEnv :=
  ⟨false, none, fun _ _ => .ok (), .ok (), fun _ => .ok (), none⟩

/-- A digest function satisfying the 64-hex-character contract. -/
def digest64a : String → String := fun _ => ⟨List.replicate 64 'a'⟩

/-- A bench environment: no UI callbacks, no ErrorMemory, SimpleMemory wired
    in, zero-duration calls. -/
def baseEnv : Env :=
  ⟨stubArduino, stubSerial, none, none, true, digest64a, fun _ _ => false, fun _ => 0⟩

/-! Shared lemmas. -/

theorem updateFirst_length (p : α → Bool) (f : α → α) :
    ∀ l : List α, (updateFirst p f l).length = l.length := by
  intro l
  induction l with
  | nil => rfl
  | cons x xs ih =>
    by_cases h : p x
    · simp [updateFirst, h]
    · simp [updateFirst, h, ih]

theorem find?_updateFirst (p : α → Bool) (f : α → α)
    (hp : ∀ a, p a = true → p (f a) = true) :
    ∀ l : List α, (updateFirst p f l).find? p = (l.find? p).map f := by
  intro l
  induction l with
  | nil => rfl
  | cons x xs ih =>
    by_cases h : p x
    · simp [updateFirst, h, List.find?_cons_of_pos, hp x h]
    · simp [updateFirst, h, List.find?_cons_of_neg, ih]

theorem find?_append_left_none (p : α → Bool) (l₁ l₂ : List α)
    (h : l₁.find? p = none) : (l₁ ++ l₂).find? p = l₂.find? p := by
  induction l₁ with
  | nil => rfl
  | cons x xs ih =>
    rw [List.find?_cons] at h
    rcases hx : p x with _ | _
    · rw [hx] at h
      simp only [List.cons_append, List.find?_cons, hx]
      exact ih h
    · rw [hx] at h
      cases h

theorem all_take (p : α → Bool) :
    ∀ (l : List α) (n : Nat), l.all p = true → (l.take n).all p = true := by
  intro l
  induction l with
  | nil => intro n _; simp
  | cons x xs ih =>
    intro n h
    cases n with
    | zero => simp
    | succ m =>
      simp only [List.all_cons, Bool.and_eq_true] at h
      simp only [List.take_succ_cons, List.all_cons, Bool.and_eq_true]
      exact ⟨h.1, ih m h.2⟩

/-- execute never rejects: for every tool call, environment and state, it
    resolves with an envelope carrying the tool name and a success flag. -/
theorem executeE_isOk (env : Env) (tc : ToolCall) (w : World) :
    ∃ r w', executeE env tc w = .ok (r, w') ∧
      r.objGet "tool" = some (.str tc.name) ∧
      ∃ b, r.objGet "success" = some (.bool b) := by
  unfold executeE
  cases hval : validateToolCall tc with
  | error e => exact ⟨_, _, rfl, rfl, false, rfl⟩
  | ok u =>
    cases u
    rcases hd : dispatch env tc { w with clock := w.clock + env.duration tc } with ⟨d, w2⟩
    simp only [hd]
    cases d with
    | error err => exact ⟨_, _, rfl, rfl, false, rfl⟩
    | ok out =>
      cases out with
      | unknown => exact ⟨_, _, rfl, rfl, false, rfl⟩
      | handled r => exact ⟨_, _, rfl, rfl, true, rfl⟩

/-- Projection of a tool-result message onto its correlation id and name. -/
def toolMsgKey : AgentMsg → Option (String × String)
  | .tool i n _ => some (i, n)
  | _ => none

theorem runToolCalls_spec (env : Env) :
    ∀ (calls : List ToolCall) (msgs : List AgentMsg) (acc : List JsVal) (w : World),
    ∃ newMsgs results w',
      runToolCalls env calls msgs acc w =
        .ok (msgs ++ newMsgs, acc ++ results, w', calls.map (fun tc => (tc.name, tc.id))) ∧
      newMsgs.map toolMsgKey = calls.map (fun tc => some (tc.id, tc.name)) ∧
      results.length = calls.length := by
  intro calls
  induction calls with
  | nil =>
    intro msgs acc w
    exact ⟨[], [], w, by simp [runToolCalls], rfl, rfl⟩
  | cons tc rest ih =>
    intro msgs acc w
    obtain ⟨r, w1, hexec, -, -⟩ := executeE_isOk env tc w
    obtain ⟨nm, rs, w2, hrun, hkeys, hlen⟩ :=
      ih (msgs ++ [AgentMsg.tool tc.id tc.name
            (jsonStringify (attachTime r (w1.clock - w.clock)))])
         (acc ++ [attachTime r (w1.clock - w.clock)]) w1
    refine ⟨AgentMsg.tool tc.id tc.name
              (jsonStringify (attachTime r (w1.clock - w.clock))) :: nm,
            attachTime r (w1.clock - w.clock) :: rs, w2, ?_, ?_, ?_⟩
    · simp only [runToolCalls, hexec, hrun]
      simp
    · simp [hkeys, toolMsgKey]
    · simp [hlen]

/-- The iteration-limit result object. -/
def limitResultOf (ts : List JsVal) : QueryResult :=
  ⟨some iterationLimitText, ts, none, none, some "max_iterations_reached"⟩

theorem agentLoop_limit (chat : ChatFn) (env : Env) (tools : List ToolDef)
    (hchat : ∀ msgs, ∃ r, chat msgs tools = .ok r ∧ r.toolCalls ≠ []) :
    ∀ (fuel : Nat) (msgs hist : List AgentMsg) (acc : List JsVal) (w : World) (calls : Nat),
    ∃ results w',
      agentLoop chat env tools fuel msgs hist acc w calls =
        .ok (limitResultOf (acc ++ results), hist, w', calls + fuel) ∧
      fuel ≤ results.length := by
  intro fuel
  induction fuel with
  | zero =>
    intro msgs hist acc w calls
    exact ⟨[], w, by simp [agentLoop, limitResultOf], by simp⟩
  | succ f ih =>
    intro msgs hist acc w calls
    obtain ⟨resp, hresp, hne⟩ := hchat msgs
    have hie : resp.toolCalls.isEmpty = false := by
      cases h : resp.toolCalls with
      | nil => exact absurd h hne
      | cons a l => rfl
    obtain ⟨nm, rs, w1, hrun, -, hlen⟩ :=
      runToolCalls_spec env resp.toolCalls
        (msgs ++ [AgentMsg.assistant resp.content resp.toolCalls]) acc w
    obtain ⟨results, w2, hloop, hbound⟩ :=
      ih ((msgs ++ [AgentMsg.assistant resp.content resp.toolCalls]) ++ nm) hist
         (acc ++ rs) w1 (calls + 1)
    have hpos : 0 < resp.toolCalls.length := List.length_pos.mpr hne
    refine ⟨rs ++ results, w2, ?_, ?_⟩
    · simp only [agentLoop, hresp, hie, Bool.false_eq_true, if_false, hrun, hloop]
      have harith : calls + 1 + f = calls + (f + 1) := by omega
      rw [harith, List.append_assoc]
    · simp only [List.length_append]
      omega

theorem agentLoop_isOk (chat : ChatFn) (env : Env) (tools : List ToolDef)
    (hchat : ∀ msgs, ∃ r, chat msgs tools = .ok r) :
    ∀ (fuel : Nat) (msgs hist : List AgentMsg) (acc : List JsVal) (w : World) (calls : Nat),
    ∃ out, agentLoop chat env tools fuel msgs hist acc w calls = .ok out := by
  intro fuel
  induction fuel with
  | zero =>
    intro msgs hist acc w calls
    exact ⟨_, rfl⟩
  | succ f ih =>
    intro msgs hist acc w calls
    obtain ⟨resp, hresp⟩ := hchat msgs
    cases hie : resp.toolCalls.isEmpty with
    | true =>
      refine ⟨(⟨resp.content, acc, resp.usage, resp.modelName, none⟩,
               match optTruthy resp.content with
               | some c => hist ++ [AgentMsg.assistant (some c) []]
               | none => hist, w, calls + 1), ?_⟩
      simp only [agentLoop, hresp, hie, if_true]
    | false =>
      obtain ⟨nm, rs, w1, hrun, -, -⟩ :=
        runToolCalls_spec env resp.toolCalls
          (msgs ++ [AgentMsg.assistant resp.content resp.toolCalls]) acc w
      obtain ⟨out, hout⟩ :=
        ih ((msgs ++ [AgentMsg.assistant resp.content resp.toolCalls]) ++ nm) hist
           (acc ++ rs) w1 (calls + 1)
      refine ⟨out, ?_⟩
      simp only [agentLoop, hresp, hie, Bool.false_eq_true, if_false, hrun]
      exact hout

/-- C2 (amended): with a provider selected whose calls all resolve,
    processQuery resolves in every mode for every input — tool-call
    failures, throwing collaborators and validation errors are all
    represented as data in the returned result — but when no provider is
    selected processQuery throws the No-provider error to its caller
    instead of returning it as data (and see the counterexample). -/
theorem processQuery_isOk (chat : ChatFn)
    (hchat : ∀ msgs tools, ∃ r, chat msgs tools = .ok r)
    (cfg : AgentConfig) (env : Env) (userQuery : String) (ctx : IdeContext)
    (mode : AgentMode) (history : List AgentMsg) (w : World) :
    ∃ out, processQuery (some chat) cfg env userQuery ctx mode history w = .ok out := by
  cases mode with
  | ask =>
    obtain ⟨resp, hresp⟩ := hchat
      (AgentMsg.system (getSystemPrompt .ask) ::
        (history ++ [AgentMsg.user (buildUserContent userQuery ctx)])) []
    refine ⟨(⟨resp.content, [], resp.usage, resp.modelName, none⟩,
             match optTruthy resp.content with
             | some c => (history ++ [AgentMsg.user (buildUserContent userQuery ctx)]) ++
                 [AgentMsg.assistant (some c) []]
             | none => history ++ [AgentMsg.user (buildUserContent userQuery ctx)],
             w, 1), ?_⟩
    unfold processQuery
    simp only [getToolsForMode]
    rw [if_neg (by decide)]
    simp only [hresp]
  | agent =>
    obtain ⟨out, hout⟩ := agentLoop_isOk chat env (getToolsForMode .agent)
      (fun msgs => hchat msgs (getToolsForMode .agent)) cfg.maxIterations
      (AgentMsg.system (getSystemPrompt .agent) ::
        (history ++ [AgentMsg.user (buildUserContent userQuery ctx)]))
      (history ++ [AgentMsg.user (buildUserContent userQuery ctx)]) [] w 0
    refine ⟨out, ?_⟩
    simp only [processQuery]
    rw [if_pos]
    · exact hout
    · decide
  | debug =>
    obtain ⟨out, hout⟩ := agentLoop_isOk chat env (getToolsForMode .debug)
      (fun msgs => hchat msgs (getToolsForMode .debug)) cfg.maxIterations
      (AgentMsg.system (getSystemPrompt .debug) ::
        (history ++ [AgentMsg.user (buildUserContent userQuery ctx)]))
      (history ++ [AgentMsg.user (buildUserContent userQuery ctx)]) [] w 0
    refine ⟨out, ?_⟩
    simp only [processQuery]
    rw [if_pos]
    · exact hout
    · decide

/-- Hex digit alphabet of a lower-case hex digest. -/
def isHexChar (c : Char) : Bool := "0123456789abcdef".data.contains c

namespace SimpleMemory

theorem recordError_fst (digest : String → String) (st : MemoryState) (E : String)
    (ty ctx : Option String) (t : Nat) :
    (recordError digest st E ty ctx t).1 = generateSignature digest E := by
  unfold recordError
  cases hf : st.errors.find? (fun e => e.signature = generateSignature digest E) with
  | some e0 => simp [hf]
  | none => simp [hf]

theorem recordError_find_some (digest : String → String) (st : MemoryState) (E : String)
    (ty ctx : Option String) (t : Nat) :
    ∃ e, ((recordError digest st E ty ctx t).2).errors.find?
        (fun x => x.signature = generateSignature digest E) = some e := by
  unfold recordError
  cases hf : st.errors.find? (fun e => e.signature = generateSignature digest E) with
  | some e0 =>
    simp only [hf]
    rw [find?_updateFirst]
    · rw [hf]
      exact ⟨_, rfl⟩
    · intro a ha
      simpa using ha
  | none =>
    simp only [hf]
    rw [find?_append_left_none _ _ _ hf]
    simp [List.find?]

theorem recordError_again (digest : String → String) (st : MemoryState) (E : String)
    (ty ctx : Option String) (t2 : Nat) (e1 : ErrorRec)
    (hfind : st.errors.find? (fun x => x.signature = generateSignature digest E) = some e1) :
    (recordError digest st E ty ctx t2).2.errors.length = st.errors.length ∧
    (recordError digest st E ty ctx t2).2.errors.find?
        (fun x => x.signature = generateSignature digest E) =
      some { e1 with count := e1.count + 1, lastSeen := t2 } := by
  unfold recordError
  simp only [hfind]
  constructor
  · simp [updateFirst_length]
  · rw [find?_updateFirst]
    · rw [hfind]
      rfl
    · intro a ha
      simpa using ha

end SimpleMemory

/-- C6: recordError is signature-idempotent: recording the same error text E
    twice yields the same 16-hex-character signature both times; the second
    call increments the existing entry's occurrence counter and refreshes
    lastSeen instead of appending a second entry; and any two texts that
    normalize identically (lower-cased, whitespace-collapsed, trimmed)
    collide to the same signature. -/
theorem recordError_signature_idempotent (digest : String → String)
    (hdig : ∀ s, (digest s).data.length = 64 ∧ (digest s).data.all isHexChar)
    (st : SimpleMemory.MemoryState) (E : String) (ty ctx : Option String) (t1 t2 : Nat) :
    (SimpleMemory.recordError digest st E ty ctx t1).1 =
      (SimpleMemory.recordError digest (SimpleMemory.recordError digest st E ty ctx t1).2
        E ty ctx t2).1 ∧
    ((SimpleMemory.recordError digest st E ty ctx t1).1).data.length = 16 ∧
    ((SimpleMemory.recordError digest st E ty ctx t1).1).data.all isHexChar ∧
    (SimpleMemory.recordError digest (SimpleMemory.recordError digest st E ty ctx t1).2
        E ty ctx t2).2.errors.length =
      (SimpleMemory.recordError digest st E ty ctx t1).2.errors.length ∧
    (∃ e1, (SimpleMemory.recordError digest st E ty ctx t1).2.errors.find?
          (fun x => x.signature = SimpleMemory.generateSignature digest E) = some e1 ∧
        (SimpleMemory.recordError digest (SimpleMemory.recordError digest st E ty ctx t1).2
            E ty ctx t2).2.errors.find?
          (fun x => x.signature = SimpleMemory.generateSignature digest E) =
          some { e1 with count := e1.count + 1, lastSeen := t2 }) ∧
    (∀ E1 E2, SimpleMemory.normalizeText E1 = SimpleMemory.normalizeText E2 →
      SimpleMemory.generateSignature digest E1 = SimpleMemory.generateSignature digest E2) := by
  obtain ⟨e1, he1⟩ := SimpleMemory.recordError_find_some digest st E ty ctx t1
  obtain ⟨hlen2, hfind2⟩ := SimpleMemory.recordError_again digest
    (SimpleMemory.recordError digest st E ty ctx t1).2 E ty ctx t2 e1 he1
  refine ⟨?_, ?_, ?_, hlen2, ⟨e1, he1, hfind2⟩, ?_⟩
  · rw [SimpleMemory.recordError_fst, SimpleMemory.recordError_fst]
  · rw [SimpleMemory.recordError_fst]
    show ((digest (SimpleMemory.normalizeText E)).data.take 16).length = 16
    rw [List.length_take, (hdig (SimpleMemory.normalizeText E)).1]
    decide
  · rw [SimpleMemory.recordError_fst]
    show ((digest (SimpleMemory.normalizeText E)).data.take 16).all isHexChar = true
    exact all_take _ _ _ (hdig (SimpleMemory.normalizeText E)).2
  · intro E1 E2 hnorm
    unfold SimpleMemory.generateSignature
    rw [hnorm]

/-- Witness for C6 at a concrete digest, store and text: the digest contract
    holds for the 64-a digest, and the theorem instantiates. -/
theorem recordError_signature_idempotent_witness :
    (∀ s, (digest64a s).data.length = 64 ∧ (digest64a s).data.all isHexChar) ∧
    ((SimpleMemory.recordError digest64a SimpleMemory.MemoryState.empty
        "Boom  FAIL" none none 3).1 =
      (SimpleMemory.recordError digest64a
        (SimpleMemory.recordError digest64a SimpleMemory.MemoryState.empty
          "Boom  FAIL" none none 3).2 "Boom  FAIL" none none 7).1 ∧
     ((SimpleMemory.recordError digest64a SimpleMemory.MemoryState.empty
        "Boom  FAIL" none none 3).1).data.length = 16 ∧
     ((SimpleMemory.recordError digest64a SimpleMemory.MemoryState.empty
        "Boom  FAIL" none none 3).1).data.all isHexChar ∧
     (SimpleMemory.recordError digest64a
        (SimpleMemory.recordError digest64a SimpleMemory.MemoryState.empty
          "Boom  FAIL" none none 3).2 "Boom  FAIL" none none 7).2.errors.length =
      (SimpleMemory.recordError digest64a SimpleMemory.MemoryState.empty
        "Boom  FAIL" none none 3).2.errors.length ∧
     (∃ e1, (SimpleMemory.recordError digest64a SimpleMemory.MemoryState.empty
           "Boom  FAIL" none none 3).2.errors.find?
           (fun x => x.signature = SimpleMemory.generateSignature digest64a "Boom  FAIL") =
           some e1 ∧
         (SimpleMemory.recordError digest64a
             (SimpleMemory.recordError digest64a SimpleMemory.MemoryState.empty
               "Boom  FAIL" none none 3).2 "Boom  FAIL" none none 7).2.errors.find?
           (fun x => x.signature = SimpleMemory.generateSignature digest64a "Boom  FAIL") =
           some { e1 with count := e1.count + 1, lastSeen := 7 }) ∧
     (∀ E1 E2, SimpleMemory.normalizeText E1 = SimpleMemory.normalizeText E2 →
       SimpleMemory.generateSignature digest64a E1 =
         SimpleMemory.generateSignature digest64a E2)) := by
  have hdig : ∀ s, (digest64a s).data.length = 64 ∧ (digest64a s).data.all isHexChar := by
    intro s
    refine ⟨?_, ?_⟩
    · show (List.replicate 64 'a').length = 64
      decide
    · show (List.replicate 64 'a').all isHexChar = true
      decide
  exact ⟨hdig, recordError_signature_idempotent digest64a hdig
    SimpleMemory.MemoryState.empty "Boom  FAIL" none none 3 7⟩

/-- C7 (amended): on the SimpleMemory store the agent wires in, searching
    with the identical text of a recorded error returns the exact-match
    signature entry at confidence 1.0 with any fix recorded against that
    signature among the returned fixes (in recording order — SimpleMemory
    fixes carry no successCount to rank by); absent an exact hash match, the
    fuzzy fallback returns at most limit candidates, every one at the fixed
    lower confidence 0.5. -/
theorem searchSimilarErrors_exact_and_fuzzy (digest : String → String)
    (st0 : SimpleMemory.MemoryState) (E desc : String) (ty ctx fctx : Option String)
    (t1 t2 : Nat) (limit : Nat) :
    (∃ found fixes,
       SimpleMemory.searchSimilarErrors digest
         (SimpleMemory.recordFix (SimpleMemory.recordError digest st0 E ty ctx t1).2
           (SimpleMemory.recordError digest st0 E ty ctx t1).1 desc fctx t2).2 E limit =
         .exact found fixes 1 ∧
       (SimpleMemory.recordFix (SimpleMemory.recordError digest st0 E ty ctx t1).2
           (SimpleMemory.recordError digest st0 E ty ctx t1).1 desc fctx t2).1 ∈ fixes) ∧
    (∀ (st : SimpleMemory.MemoryState) (q : String) (lim : Nat),
       st.errors.find? (fun e => e.signature = SimpleMemory.generateSignature digest q) = none →
       ∃ ms, SimpleMemory.searchSimilarErrors digest st q lim = .fuzzy ms ms.length ∧
         ms.length ≤ lim ∧ ∀ m ∈ ms, m.2.2 = mkRat 1 2) := by
  constructor
  · obtain ⟨e, he⟩ := SimpleMemory.recordError_find_some digest st0 E ty ctx t1
    have hfind : (SimpleMemory.recordFix (SimpleMemory.recordError digest st0 E ty ctx t1).2
        (SimpleMemory.recordError digest st0 E ty ctx t1).1 desc fctx t2).2.errors.find?
        (fun x => x.signature = SimpleMemory.generateSignature digest E) = some e := he
    refine ⟨e, (SimpleMemory.recordFix (SimpleMemory.recordError digest st0 E ty ctx t1).2
        (SimpleMemory.recordError digest st0 E ty ctx t1).1 desc fctx t2).2.fixes.filter
        (fun f => f.errorSignature = SimpleMemory.generateSignature digest E), ?_, ?_⟩
    · unfold SimpleMemory.searchSimilarErrors
      simp only [hfind]
    · apply List.mem_filter.mpr
      constructor
      · exact List.mem_append_right _ (List.mem_singleton.mpr rfl)
      · have hfst := SimpleMemory.recordError_fst digest st0 E ty ctx t1
        simp only [SimpleMemory.recordFix, hfst]
        simp
  · intro st q lim hnone
    have hnone' : st.errors.find?
        (fun e => e.signature = SimpleMemory.generateSignature digest q) = none := hnone
    refine ⟨((st.errors.filter (fun e =>
          jsIncludes (jsToLower e.message) (jsToLower q) ||
          jsIncludes (jsToLower q) ⟨(jsToLower e.message).data.take 50⟩)).take lim).map
        (fun e => (e, st.fixes.filter (fun f => f.errorSignature = e.signature), mkRat 1 2)),
        ?_, ?_, ?_⟩
    · unfold SimpleMemory.searchSimilarErrors
      simp only [hnone']
    · simp only [List.length_map]
      exact List.length_take_le _ _
    · intro m hm
      obtain ⟨a, -, rfl⟩ := List.mem_map.mp hm
      rfl

/-- Witness for the C7 theorem at concrete inputs: the fuzzy-path hypothesis
    (no exact signature match in the empty store) is discharged concretely
    and the theorem instantiates. -/
theorem searchSimilarErrors_exact_and_fuzzy_witness :
    (SimpleMemory.MemoryState.empty.errors.find?
        (fun e => e.signature = SimpleMemory.generateSignature digest64a "zap") = none) ∧
    (∃ found fixes,
       SimpleMemory.searchSimilarErrors digest64a
         (SimpleMemory.recordFix
           (SimpleMemory.recordError digest64a SimpleMemory.MemoryState.empty
             "avrdude: stk500_getsync(): not in sync" none none 1).2
           (SimpleMemory.recordError digest64a SimpleMemory.MemoryState.empty
             "avrdude: stk500_getsync(): not in sync" none none 1).1
           "lower the upload speed" none 2).2
         "avrdude: stk500_getsync(): not in sync" 10 = .exact found fixes 1 ∧
       (SimpleMemory.recordFix
           (SimpleMemory.recordError digest64a SimpleMemory.MemoryState.empty
             "avrdude: stk500_getsync(): not in sync" none none 1).2
           (SimpleMemory.recordError digest64a SimpleMemory.MemoryState.empty
             "avrdude: stk500_getsync(): not in sync" none none 1).1
           "lower the upload speed" none 2).1 ∈ fixes) ∧
    (∃ ms, SimpleMemory.searchSimilarErrors digest64a SimpleMemory.MemoryState.empty
        "zap" 4 = .fuzzy ms ms.length ∧ ms.length ≤ 4 ∧ ∀ m ∈ ms, m.2.2 = mkRat 1 2) := by
  refine ⟨rfl, ?_, ?_⟩
  · exact (searchSimilarErrors_exact_and_fuzzy digest64a SimpleMemory.MemoryState.empty
      "avrdude: stk500_getsync(): not in sync" "lower the upload speed"
      none none none 1 2 10).1
  · exact (searchSimilarErrors_exact_and_fuzzy digest64a SimpleMemory.MemoryState.empty
      "avrdude: stk500_getsync(): not in sync" "lower the upload speed"
      none none none 1 2 10).2 SimpleMemory.MemoryState.empty "zap" 4 rfl

/-- AIMemory fuzzy counterexample store: one signature whose pattern
    contains the query, one matched only through its error_type. -/
def aiSigBoomPattern : AIMemory.SigRow := ⟨1, "s1", none, some "boom failure", 1, 0, 0⟩

/-- Second signature of the counterexample store. -/
def aiSigBoomType : AIMemory.SigRow := ⟨2, "s2", some "has boom inside", none, 1, 0, 0⟩

/-- The counterexample database. -/
def aiDbBoom : AIMemory.DB := ⟨[aiSigBoomPattern, aiSigBoomType], [], [], 3, 1, 1⟩

/-- C7 counterexample: on the SQL-backed AIMemory store, the fuzzy fallback
    does not return its candidates at one fixed lower confidence constant:
    the same query yields one candidate at confidence 0.8 (pattern LIKE
    match) and another at 0.3 (error_type LIKE match only) in a single
    result, and 0.8 differs from 0.3. -/
theorem aiMemory_fuzzy_confidence_not_constant :
    AIMemory.searchSimilarErrors digest64a aiDbBoom "boom" 10 =
      .fuzzy [(aiSigBoomPattern, [], mkRat 8 10), (aiSigBoomType, [], mkRat 3 10)] 2 ∧
    mkRat 8 10 ≠ mkRat 3 10 := by
  constructor
  · rfl
  · decide

/-- First recordFix of the C8 scenario. -/
def c8first : SimpleMemory.FixRec × SimpleMemory.MemoryState :=
  SimpleMemory.recordFix SimpleMemory.MemoryState.empty "sig-1"
    "lower the upload speed" none 5

/-- Second, identical recordFix of the C8 scenario. -/
def c8second : SimpleMemory.FixRec × SimpleMemory.MemoryState :=
  SimpleMemory.recordFix c8first.2 "sig-1" "lower the upload speed" none 6

/-- C8 counterexample: recording the same fix description twice against the
    same signature leaves two Fix entries with identical signature and
    description in the store — a duplicate is created, and there is no
    occurrence counter on the association to increment. -/
theorem recordFix_duplicates_counterexample :
    c8second.2.fixes =
      [⟨5, "sig-1", "lower the upload speed", none, 5⟩,
       ⟨6, "sig-1", "lower the upload speed", none, 6⟩] ∧
    c8second.2.fixes.length = 2 := by
  exact ⟨rfl, rfl⟩

/-- C8 (amended): recordFix appends unconditionally.  On SimpleMemory,
    recording the same description twice for the same signature appends two
    Fix records (no deduplication, no successCount — the record carries
    none).  On the SQL-backed AIMemory, each recordFix call inserts a fresh
    fixes row and a fresh association row whose success_count stays at its
    default 1, so repetition duplicates rather than increments. -/
theorem recordFix_appends_always :
    (∀ (st : SimpleMemory.MemoryState) (sig desc : String) (ctx : Option String)
       (t1 t2 : Nat),
       (SimpleMemory.recordFix
         (SimpleMemory.recordFix st sig desc ctx t1).2 sig desc ctx t2).2.fixes =
       st.fixes ++ [⟨t1, sig, desc, ctx, t1⟩, ⟨t2, sig, desc, ctx, t2⟩]) ∧
    ((AIMemory.recordFix digest64a
        (AIMemory.recordFix digest64a AIMemory.DB.empty "E" "F" none none 9).2
        "E" "F" none none 9).2.fixes.length = 2 ∧
     (AIMemory.recordFix digest64a
        (AIMemory.recordFix digest64a AIMemory.DB.empty "E" "F" none none 9).2
        "E" "F" none none 9).2.assocs.length = 2 ∧
     ∀ a ∈ (AIMemory.recordFix digest64a
        (AIMemory.recordFix digest64a AIMemory.DB.empty "E" "F" none none 9).2
        "E" "F" none none 9).2.assocs, a.successCount = 1) := by
  refine ⟨?_, rfl, rfl, ?_⟩
  · intro st sig desc ctx t1 t2
    simp [SimpleMemory.recordFix]
  · decide

/-- The upload/compile tool call with empty arguments. -/
def tcUploadEmpty : ToolCall := ⟨"call-1", "upload_sketch", []⟩

/-- The compile analogue. -/
def tcCompileEmpty : ToolCall := ⟨"call-2", "compile_sketch", []⟩

/-- The actionable message of the unresolved-sketch failure. -/
def noSketchMsg : String :=
  "No sketch open. Please open a .ino file first (Open Sketch in the sidebar)."

/-- The handler result for an upload with nothing resolvable. -/
def uploadInner : JsVal := .obj [("success", .bool false), ("error", .str noSketchMsg)]

/-- The envelope execute() actually returns for that call. -/
def uploadEnvelope : JsVal :=
  .obj [("success", .bool true), ("tool", .str "upload_sketch"), ("result", uploadInner)]

/-- The post-call world: the failed execution was recorded. -/
def uploadWorldAfter : World :=
  ⟨⟨[], [], [⟨"upload_sketch", [], false, some noSketchMsg, 0⟩]⟩, [], ["upload_sketch"], 0⟩

/-- C1 counterexample: execute(upload_sketch, empty arguments) with no file
    open and no environment default resolves with an envelope whose
    top-level success flag is true, not false — the claimed
    success-false ToolResult is not what execute returns. -/
theorem upload_empty_env_envelope_success_true :
    executeE baseEnv tcUploadEmpty World.empty = .ok (uploadEnvelope, uploadWorldAfter) ∧
    uploadEnvelope.objGet "success" = some (.bool true) ∧
    ¬ uploadEnvelope.objGet "success" = some (.bool false) := by
  refine ⟨rfl, rfl, ?_⟩
  simp [uploadEnvelope, JsVal.objGet, uploadInner]

/-- C1 (amended): for execute(upload_sketch or compile_sketch, empty
    arguments) with no file open and no environment default, the specific,
    human-actionable no-sketch-open message is produced, but it sits on the
    nested handler result (success:false, error:...) inside an envelope
    whose own success flag is true. -/
theorem upload_compile_empty_env_actionable_message :
    executeE baseEnv tcUploadEmpty World.empty = .ok (uploadEnvelope, uploadWorldAfter) ∧
    uploadEnvelope.objGet "result" = some uploadInner ∧
    uploadInner.objGet "success" = some (.bool false) ∧
    uploadInner.objGet "error" = some (.str noSketchMsg) ∧
    (∃ w', executeE baseEnv tcCompileEmpty World.empty =
      .ok (.obj [("success", .bool true), ("tool", .str "compile_sketch"),
                 ("result", uploadInner)], w')) := by
  exact ⟨rfl, rfl, rfl, rfl, ⟨_, rfl⟩⟩

/-- C3: for every tool call — in every environment, including ones whose
    dispatched collaborator handler throws — execute() resolves with a
    ToolResult envelope (carrying the tool name and a success flag) and
    never rejects. -/
theorem execute_never_rejects (env : Env) (tc : ToolCall) (w : World) :
    ∃ r w', executeE env tc w = .ok (r, w') ∧
      r.objGet "tool" = some (.str tc.name) ∧
      ∃ b, r.objGet "success" = some (.bool b) :=
  executeE_isOk env tc w

/-- C5: a tool call that fails validation — in particular one whose name is
    not in the catalog, or whose arguments lack a required parameter — makes
    execute() return a success-false result immediately with the world
    untouched: no collaborator handler runs and no state changes before
    rejection. -/
theorem validation_gate_no_side_effects :
    (∀ (env : Env) (tc : ToolCall) (w : World) (err : String),
       validateToolCall tc = .error err →
       executeE env tc w = .ok (.obj [("success", .bool false), ("error", .str err),
         ("tool", .str tc.name)], w)) ∧
    (∀ tc : ToolCall, getTool tc.name = none → ∃ err, validateToolCall tc = .error err) ∧
    (∀ (tc : ToolCall) (tool : ToolDef) (p : String),
       getTool tc.name = some tool → p ∈ tool.required →
       argHasKey tc.arguments p = false →
       ∃ err, validateToolCall tc = .error err) := by
  refine ⟨?_, ?_, ?_⟩
  · intro env tc w err h
    unfold executeE
    rw [h]
  · intro tc h
    unfold validateToolCall
    by_cases hn : tc.name = ""
    · rw [if_pos hn]
      exact ⟨_, rfl⟩
    · rw [if_neg hn, h]
      exact ⟨_, rfl⟩
  · intro tc tool p htool hp hmiss
    unfold validateToolCall
    have hn : ¬ tc.name = "" := by
      intro he
      have hg : getTool "" = none := rfl
      rw [he, hg] at htool
      exact Option.noConfusion htool
    rw [if_neg hn]
    simp only [htool]
    have hsome : (tool.required.find? (fun q => ¬ argHasKey tc.arguments q)).isSome := by
      apply List.find?_isSome.mpr
      exact ⟨p, hp, by simp [hmiss]⟩
    obtain ⟨q, hq⟩ := Option.isSome_iff_exists.mp hsome
    rw [hq]
    exact ⟨_, rfl⟩

/-- Witness for C5: a call with a name outside the catalog fails validation
    and execute returns the unchanged world with a success-false result. -/
theorem validation_gate_no_side_effects_witness :
    validateToolCall ⟨"x", "nonexistent_tool", []⟩ =
      .error "Unknown tool: nonexistent_tool" ∧
    executeE baseEnv ⟨"x", "nonexistent_tool", []⟩ World.empty =
      .ok (.obj [("success", .bool false),
        ("error", .str "Unknown tool: nonexistent_tool"),
        ("tool", .str "nonexistent_tool")], World.empty) :=
  ⟨rfl, validation_gate_no_side_effects.1 baseEnv ⟨"x", "nonexistent_tool", []⟩
    World.empty "Unknown tool: nonexistent_tool" rfl⟩

/-- C9: for one provider response carrying tool calls [A, B, ...], the
    executor is invoked strictly sequentially in exactly that order (the
    ghost invocation log equals the calls in order), the tool-result
    messages are appended in that same order each carrying the originating
    call's id, and one result is appended per call in order. -/
theorem toolCalls_sequential_order_preserved (env : Env) (calls : List ToolCall)
    (msgs : List AgentMsg) (acc : List JsVal) (w : World) :
    ∃ newMsgs results w',
      runToolCalls env calls msgs acc w =
        .ok (msgs ++ newMsgs, acc ++ results, w',
             calls.map (fun tc => (tc.name, tc.id))) ∧
      newMsgs.map toolMsgKey = calls.map (fun tc => some (tc.id, tc.name)) ∧
      results.length = calls.length :=
  runToolCalls_spec env calls msgs acc w

/-- C4: against a provider whose every response proposes at least one tool
    call, processQuery in agent mode terminates after exactly maxIterations
    provider round-trips (the ghost counter) and returns the
    iteration-limit result — a max_iterations_reached warning, not an
    exception — still carrying the accumulated partial tool results (at
    least one per round). -/
theorem processQuery_iteration_limit (chat : ChatFn) (cfg : AgentConfig) (env : Env)
    (userQuery : String) (ctx : IdeContext) (history : List AgentMsg) (w : World)
    (hchat : ∀ msgs, ∃ r, chat msgs getAllTools = .ok r ∧ r.toolCalls ≠ []) :
    ∃ results w',
      processQuery (some chat) cfg env userQuery ctx .agent history w =
        .ok (limitResultOf results,
             history ++ [AgentMsg.user (buildUserContent userQuery ctx)],
             w', cfg.maxIterations) ∧
      cfg.maxIterations ≤ results.length := by
  obtain ⟨results, w', hloop, hlen⟩ := agentLoop_limit chat env getAllTools hchat
    cfg.maxIterations
    (AgentMsg.system (getSystemPrompt .agent) ::
      (history ++ [AgentMsg.user (buildUserContent userQuery ctx)]))
    (history ++ [AgentMsg.user (buildUserContent userQuery ctx)]) [] w 0
  refine ⟨results, w', ?_, hlen⟩
  unfold processQuery
  simp only [getToolsForMode]
  rw [if_pos (by decide)]
  rw [hloop]
  simp

/-- The provider stub of the C4 witness: every response proposes one call. -/
def chatAlwaysTool : ChatFn := fun _ _ =>
  .ok ⟨none, [⟨"w-1", "get_available_baud_rates", []⟩], none, none⟩

/-- Witness for C4 at maxIterations 2: the always-tool-call hypothesis holds
    for the stub and the theorem instantiates. -/
theorem processQuery_iteration_limit_witness :
    (∀ msgs, ∃ r, chatAlwaysTool msgs getAllTools = .ok r ∧ r.toolCalls ≠ []) ∧
    (∃ results w',
      processQuery (some chatAlwaysTool) ⟨2⟩ baseEnv "loop"
          ⟨true, some "/tmp/a.ino", none, none⟩ .agent [] World.empty =
        .ok (limitResultOf results,
             [AgentMsg.user (buildUserContent "loop" ⟨true, some "/tmp/a.ino", none, none⟩)],
             w', 2) ∧
      2 ≤ results.length) := by
  have hchat : ∀ msgs, ∃ r, chatAlwaysTool msgs getAllTools = .ok r ∧ r.toolCalls ≠ [] := by
    intro msgs
    exact ⟨_, rfl, by simp⟩
  exact ⟨hchat, processQuery_iteration_limit chatAlwaysTool ⟨2⟩ baseEnv "loop"
    ⟨true, some "/tmp/a.ino", none, none⟩ [] World.empty hchat⟩

/-- C2 counterexample: processQuery invoked with no provider selected
    rejects — it throws the No-provider error instead of representing the
    failure as data in a returned result. -/
theorem processQuery_no_provider_throws :
    processQuery none ⟨10⟩ baseEnv "hello" ⟨true, some "/tmp/s.ino", none, none⟩ .agent []
      World.empty = .error ⟨"No provider selected. Please set a provider first."⟩ := rfl

/-- The plain provider stub of the C2 witness. -/
def chatPlain : ChatFn := fun _ _ => .ok ⟨some "hi", [], none, none⟩

/-- Witness for the C2 amended theorem (processQuery_isOk): a never-throwing
    provider makes processQuery resolve. -/
theorem processQuery_isOk_witness :
    (∀ msgs tools, ∃ r, chatPlain msgs tools = .ok r) ∧
    (∃ out, processQuery (some chatPlain) ⟨10⟩ baseEnv "hello"
      ⟨false, none, none, none⟩ .agent [] World.empty = .ok out) := by
  have h : ∀ msgs tools, ∃ r, chatPlain msgs tools = .ok r := fun _ _ => ⟨_, rfl⟩
  exact ⟨h, processQuery_isOk chatPlain h ⟨10⟩ baseEnv "hello"
    ⟨false, none, none, none⟩ .agent [] World.empty⟩

theorem dispatch_clock (env : Env) (tc : ToolCall) (w : World) :
    (dispatch env tc w).2.clock = w.clock := by
  unfold dispatch
  split <;> simp [executeRecordFix]
  split <;> rfl

/-- The tool call of the C10 counterexample. -/
def tcListBoards : ToolCall := ⟨"call-3", "list_boards", []⟩

/-- The failure envelope the catch branch returns when the collaborator
    throws. -/
def boardsFailEnvelope : JsVal :=
  .obj [("success", .bool false), ("error", .str "arduino unavailable"),
        ("tool", .str "list_boards"), ("stack", .str "")]

/-- The post-call world of the C10 counterexample: the handler ran, yet the
    execution log stayed empty. -/
def boardsFailWorld : World := ⟨SimpleMemory.MemoryState.empty, [], ["list_boards"], 0⟩

/-- C10 counterexample: with the memory store present, a validated call
    whose handler throws is converted to a failure ToolResult but no
    ExecutionOutcome is recorded — the execution log stays empty. -/
theorem throwing_handler_not_logged :
    executeE baseEnv tcListBoards World.empty = .ok (boardsFailEnvelope, boardsFailWorld) ∧
    boardsFailWorld.mem.executions = [] ∧
    baseEnv.aiMemoryPresent = true :=
  ⟨rfl, rfl, rfl⟩

/-- C10 (amended): when the memory store is present and the dispatched
    handler returns a result (success or failure) without throwing, execute
    logs exactly one ExecutionOutcome — tool name, arguments, the
    success-not-strictly-false flag and error text of the handler result,
    and the current clock as timestamp (no separate duration field) — onto
    the bounded log; the wall-clock execution time is instead attached by
    the orchestrator to the returned ToolResult as its executionTime
    field. -/
theorem handled_execution_logged (env : Env) (tc : ToolCall) (w : World) (r : JsVal)
    (w2 : World)
    (hmem : env.aiMemoryPresent = true)
    (hval : validateToolCall tc = .ok ())
    (hdisp : dispatch env tc { w with clock := w.clock + env.duration tc } =
      (.ok (.handled r), w2))
    (hlen : w2.mem.executions.length < 100) :
    executeE env tc w = .ok (.obj [("success", .bool true), ("tool", .str tc.name),
        ("result", r)],
      { w2 with mem := { w2.mem with executions := w2.mem.executions ++
          [⟨tc.name, tc.arguments, resultSuccessFlag r, resultErrorMsg r, w2.clock⟩] } }) ∧
    (∀ (msgs : List AgentMsg) (acc : List JsVal),
      ∃ m a w4 log, runToolCalls env [tc] msgs acc w = .ok (m, a, w4, log) ∧
        a = acc ++ [attachTime (.obj [("success", .bool true), ("tool", .str tc.name),
          ("result", r)]) (env.duration tc)] ∧
        (attachTime (.obj [("success", .bool true), ("tool", .str tc.name), ("result", r)])
          (env.duration tc)).objGet "executionTime" = some (.num (env.duration tc))) := by
  have hng : ¬ ((w2.mem.executions ++
      [(⟨tc.name, tc.arguments, resultSuccessFlag r, resultErrorMsg r, w2.clock⟩ :
        SimpleMemory.ExecRec)]).length > 100) := by
    simp only [List.length_append, List.length_singleton]
    omega
  have hrec : SimpleMemory.recordExecution w2.mem tc.name tc.arguments
      (resultSuccessFlag r) (resultErrorMsg r) w2.clock =
      { w2.mem with executions := w2.mem.executions ++
        [⟨tc.name, tc.arguments, resultSuccessFlag r, resultErrorMsg r, w2.clock⟩] } := by
    simp only [SimpleMemory.recordExecution]
    rw [if_neg hng]
  have hexec : executeE env tc w = .ok (.obj [("success", .bool true),
      ("tool", .str tc.name), ("result", r)],
      { w2 with mem := { w2.mem with executions := w2.mem.executions ++
        [⟨tc.name, tc.arguments, resultSuccessFlag r, resultErrorMsg r, w2.clock⟩] } }) := by
    unfold executeE
    simp only [hval, hdisp, hmem, if_true, hrec]
  have hclk : w2.clock = w.clock + env.duration tc := by
    have hdc := dispatch_clock env tc { w with clock := w.clock + env.duration tc }
    rw [hdisp] at hdc
    exact hdc
  refine ⟨hexec, ?_⟩
  intro msgs acc
  have harith : ({ w2 with mem := { w2.mem with executions := w2.mem.executions ++
      [⟨tc.name, tc.arguments, resultSuccessFlag r, resultErrorMsg r, w2.clock⟩] }} :
      World).clock - w.clock = env.duration tc := by
    show w2.clock - w.clock = env.duration tc
    rw [hclk]
    omega
  refine ⟨msgs ++ [AgentMsg.tool tc.id tc.name (jsonStringify (attachTime
      (.obj [("success", .bool true), ("tool", .str tc.name), ("result", r)])
      (env.duration tc)))],
    acc ++ [attachTime (.obj [("success", .bool true), ("tool", .str tc.name),
      ("result", r)]) (env.duration tc)],
    { w2 with mem := { w2.mem with executions := w2.mem.executions ++
      [⟨tc.name, tc.arguments, resultSuccessFlag r, resultErrorMsg r, w2.clock⟩] } },
    [(tc.name, tc.id)], ?_, rfl, rfl⟩
  simp only [runToolCalls, hexec, harith]

/-- The tool call of the C10 witness. -/
def tcBaudRates : ToolCall := ⟨"w10", "get_available_baud_rates", []⟩

/-- The logged world the dispatch of the C10 witness produces. -/
def baudWorldLogged : World :=
  ⟨SimpleMemory.MemoryState.empty, [], ["get_available_baud_rates"], 0⟩

/-- Witness for C10: all four hypotheses hold concretely for a
    get_available_baud_rates call on the bench environment, and the theorem
    instantiates. -/
theorem handled_execution_logged_witness :
    (baseEnv.aiMemoryPresent = true ∧
     validateToolCall tcBaudRates = .ok () ∧
     dispatch baseEnv tcBaudRates
       { World.empty with clock := World.empty.clock + baseEnv.duration tcBaudRates } =
       (.ok (.handled executeGetAvailableBaudRates), baudWorldLogged) ∧
     baudWorldLogged.mem.executions.length < 100) ∧
    (executeE baseEnv tcBaudRates World.empty = .ok (.obj [("success", .bool true),
        ("tool", .str tcBaudRates.name), ("result", executeGetAvailableBaudRates)],
      { baudWorldLogged with mem := { baudWorldLogged.mem with
          executions := baudWorldLogged.mem.executions ++
            [⟨tcBaudRates.name, tcBaudRates.arguments,
              resultSuccessFlag executeGetAvailableBaudRates,
              resultErrorMsg executeGetAvailableBaudRates, baudWorldLogged.clock⟩] } }) ∧
     (∃ m a w4 log, runToolCalls baseEnv [tcBaudRates] [] [] World.empty =
        .ok (m, a, w4, log) ∧
        a = [] ++ [attachTime (.obj [("success", .bool true),
          ("tool", .str tcBaudRates.name), ("result", executeGetAvailableBaudRates)])
          (baseEnv.duration tcBaudRates)] ∧
        (attachTime (.obj [("success", .bool true), ("tool", .str tcBaudRates.name),
          ("result", executeGetAvailableBaudRates)])
          (baseEnv.duration tcBaudRates)).objGet "executionTime" =
          some (.num (baseEnv.duration tcBaudRates)))) := by
  have h := handled_execution_logged baseEnv tcBaudRates World.empty
    executeGetAvailableBaudRates baudWorldLogged rfl rfl rfl (by decide)
  exact ⟨⟨rfl, rfl, rfl, by decide⟩, h.1, h.2 [] []⟩
